import Mathlib

/-!
Verification of the dashboard updater (`src/update-dashboard.js`).

The JavaScript source is shallowly embedded: pure string/record
manipulation becomes Lean functions over `String` / `List Char`,
JSON-like dynamic values become the inductive `JVal`, the regex-based
document patching is modelled by a small backtracking matcher faithful
to the (non-global) `String.prototype.replace` calls of the source, and
the file-system side effects of the orchestrator become explicit state
passing in an `Except` monad.
-/

namespace Dash

/-- JSON-like dynamic values, the model of the JavaScript objects held in
`state.json` and of values produced by `JSON.parse`. -/
inductive JVal where
  | jnull
  | jbool (b : Bool)
  | jnum (n : Int)
  | jstr (s : String)
  | jarr (xs : List JVal)
  | jobj (fields : List (String × JVal))

open JVal

/-- JavaScript truthiness of a `JVal` (objects and arrays are always
truthy; `null`, `false`, `0` and `""` are falsy). -/
def JVal.truthy : JVal → Bool
  | jnull => false
  | jbool b => b
  | jnum n => n != 0
  | jstr s => s ≠ ""
  | jarr _ => true
  | jobj _ => true

/-- Property lookup `o[k]` on an object; `none` models `undefined`. -/
def JVal.get : JVal → String → Option JVal
  | jobj fs, k => fs.lookup k
  | _, _ => none

/-- Property assignment `o[k] = v`.  Like JavaScript it updates the key in
place when present (keeping insertion order) and appends it otherwise;
assignment to a non-object is a silent no-op (non-strict mode). -/
def JVal.set : JVal → String → JVal → JVal
  | jobj fs, k, v => jobj (setField fs k v)
  | o, _, _ => o
where
  setField : List (String × JVal) → String → JVal → List (String × JVal)
    | [], k, v => [(k, v)]
    | (k', v') :: t, k, v =>
        if k' = k then (k', v) :: t else (k', v') :: setField t k v

/-- `a || b` on dynamic values. -/
def jsOr (a b : JVal) : JVal := if a.truthy then a else b

/-- `o.k || b` where `o.k` may be `undefined`. -/
def jsOrGet (a : Option JVal) (b : JVal) : JVal :=
  match a with
  | none => b
  | some v => jsOr v b

/-- `a || b` on optional strings (`undefined`, `null` and `""` are falsy). -/
def jsOrStr (a : Option String) (b : String) : String :=
  match a with
  | none => b
  | some s => if s = "" then b else s

-- ---------------------------------------------------------------------------
-- JavaScript string primitives used by the source
-- ---------------------------------------------------------------------------

/-- The characters matched by the JavaScript regex class `\s` and trimmed
by `String.prototype.trim`. -/
def jsSpaceChars : List Char :=
  [' ', '\t', '\n', '\u000D', '\u000B', '\u000C', '\u00A0', '\u1680',
   '\u2028', '\u2029', '\u202F', '\u205F', '\u3000', '\uFEFF']

/-- Membership in the JavaScript `\s` class. -/
def isJsSpace (c : Char) : Bool :=
  jsSpaceChars.contains c || (' ' ≤ c && c ≤ ' ')

/-- `String.prototype.trim`. -/
def jsTrim (s : String) : String :=
  ⟨(s.data.dropWhile isJsSpace).reverse.dropWhile isJsSpace |>.reverse⟩

/-- `String.prototype.substring(a, b)` for `a ≤ b` (clamped at the end). -/
def jsSubstring (s : String) (a b : Nat) : String :=
  ⟨(s.data.drop a).take (b - a)⟩

/-- `String.prototype.substring(a)`. -/
def jsSubstringFrom (s : String) (a : Nat) : String := ⟨s.data.drop a⟩

/-- `String.prototype.toLowerCase` (ASCII, which is all the source needs). -/
def jsToLower (s : String) : String := ⟨s.data.map Char.toLower⟩

/-- Whether `pat` occurs at the head of `l`. -/
def leadsWith : List Char → List Char → Bool
  | [], _ => true
  | _ :: _, [] => false
  | p :: ps, c :: cs => p = c && leadsWith ps cs

/-- Whether `pat` occurs as a contiguous run inside `l`
(`String.prototype.includes` on the underlying characters). -/
def hasSub (l pat : List Char) : Bool :=
  match l with
  | [] => pat.isEmpty
  | _ :: t => leadsWith pat l || hasSub t pat

/-- `String.prototype.includes`. -/
def jsIncludes (s pat : String) : Bool := hasSub s.data pat.data

/-- `String.prototype.startsWith`. -/
def jsStartsWith (s pat : String) : Bool := leadsWith pat.data s.data

/-- The value `parseInt` gives on an all-digit string (the only shape the
source feeds it). -/
def digitsVal (ds : List Char) : Nat :=
  ds.foldl (fun a c => 10 * a + (c.toNat - 48)) 0

-- ---------------------------------------------------------------------------
-- escapeHtml (src/update-dashboard.js lines 1251-1258)
-- ---------------------------------------------------------------------------

/-- One global single-character replacement, the model of
`text.replace(/c/g, rep)` for a one-character pattern. -/
def repChar (c : Char) (rep : List Char) (s : List Char) : List Char :=
  s.flatMap (fun x => if x = c then rep else [x])

/-- `escapeHtml` on the character list: the four chained global replaces
from the source, in source order (`&` first). -/
def escapeHtmlL (s : List Char) : List Char :=
  repChar '"' "&quot;".data
    (repChar '>' "&gt;".data
      (repChar '<' "&lt;".data
        (repChar '&' "&amp;".data s)))

/-- `escapeHtml(text)` (the `if (!text) return ''` guard included; a falsy
argument, i.e. `undefined`/`null`/`''`, yields `''`). -/
def escapeHtml (text : String) : String :=
  if text = "" then "" else ⟨escapeHtmlL text.data⟩

/-- `escapeHtml` applied to a possibly-`undefined` field. -/
def escapeHtmlOpt : Option String → String
  | none => ""
  | some s => escapeHtml s

-- ---------------------------------------------------------------------------
-- A backtracking matcher for the regex fragment the source uses
-- ---------------------------------------------------------------------------

/-- A character class (explicit characters plus ranges, possibly negated). -/
structure CC where
  neg : Bool
  chars : List Char
  ranges : List (Char × Char)

/-- Class membership. -/
def CC.mem (p : CC) (c : Char) : Bool :=
  let base := p.chars.contains c || p.ranges.any (fun r => r.1 ≤ c && c ≤ r.2)
  if p.neg then !base else base

/-- `\s`. -/
def ccWS : CC := ⟨false, jsSpaceChars, [(' ', ' ')]⟩
/-- `\d`. -/
def ccDigit : CC := ⟨false, [], [('0', '9')]⟩
/-- `\w`. -/
def ccWord : CC := ⟨false, ['_'], [('A', 'Z'), ('a', 'z'), ('0', '9')]⟩
/-- `[^"]`. -/
def ccNotQuote : CC := ⟨true, ['"'], []⟩
/-- `[^<]`. -/
def ccNotLt : CC := ⟨true, ['<'], []⟩

/-- The regex fragment appearing in the source's `replace`/`match` calls:
literals, classes, greedy `*`/`+` over a class, lazy `[\s\S]*?`,
concatenation, alternation and numbered capture groups. -/
inductive Rex where
  | eps
  | str (s : List Char)
  | one (p : CC)
  | starG (p : CC)
  | starLany
  | seq (a b : Rex)
  | alt (a b : Rex)
  | grp (i : Nat) (r : Rex)

/-- Concatenation of a rule list. -/
def rseq (l : List Rex) : Rex := l.foldr Rex.seq Rex.eps

/-- String literal pattern. -/
def rlit (s : String) : Rex := Rex.str s.data

/-- Greedy `+` over a class (one mandatory occurrence then a greedy star). -/
def rplus (p : CC) : Rex := Rex.seq (Rex.one p) (Rex.starG p)

/-- Captured groups of a match. -/
abbrev Caps := List (Nat × List Char)

/-- Continuation used by the matcher. -/
abbrev MK := List Char → Caps → Option (List Char × Caps)

/-- Greedy-star backtracking: try consuming `i` characters first, then
fewer, down to zero. -/
def tryLens (s : List Char) (caps : Caps) (k : MK) : Nat → Option (List Char × Caps)
  | 0 => k s caps
  | i + 1 => (k (s.drop (i + 1)) caps).orElse (fun _ => tryLens s caps k i)

/-- Lazy `[\s\S]*?`: try consuming nothing first, then one more character
at a time. -/
def lazyAll (caps : Caps) (k : MK) : List Char → Option (List Char × Caps)
  | [] => k [] caps
  | c :: t => ((k (c :: t) caps)).orElse (fun _ => lazyAll caps k t)

/-- Consume a literal from the head of the input. -/
def eatStr : List Char → List Char → Option (List Char)
  | [], s => some s
  | _ :: _, [] => none
  | p :: ps, c :: cs => if p = c then eatStr ps cs else none

/-- The backtracking matcher, in continuation style.  Alternatives are
tried in source order and quantifiers with JavaScript's preference
(greedy classes longest-first, the lazy any-star shortest-first), so the
first success is the JavaScript match. -/
def mat : Rex → List Char → Caps → MK → Option (List Char × Caps)
  | .eps, s, caps, k => k s caps
  | .str p, s, caps, k =>
      match eatStr p s with
      | some s' => k s' caps
      | none => none
  | .one p, s, caps, k =>
      match s with
      | [] => none
      | c :: t => if p.mem c then k t caps else none
  | .starG p, s, caps, k => tryLens s caps k (s.takeWhile p.mem).length
  | .starLany, s, caps, k => lazyAll caps k s
  | .seq a b, s, caps, k => mat a s caps (fun s' caps' => mat b s' caps' k)
  | .alt a b, s, caps, k => (mat a s caps k).orElse (fun _ => mat b s caps k)
  | .grp i r, s, caps, k =>
      mat r s caps (fun s' caps' => k s' ((i, s.take (s.length - s'.length)) :: caps'))

/-- Leftmost match of `r`: `(before, matched, captures, after)`. -/
def scanM (r : Rex) : List Char → Option (List Char × List Char × Caps × List Char)
  | [] =>
    match mat r [] [] (fun s' caps => some (s', caps)) with
    | some (rest, caps) => some ([], [], caps, rest)
    | none => none
  | c :: t =>
    match mat r (c :: t) [] (fun s' caps => some (s', caps)) with
    | some (rest, caps) =>
        some ([], (c :: t).take ((c :: t).length - rest.length), caps, rest)
    | none => (scanM r t).map (fun x => (c :: x.1, x.2.1, x.2.2.1, x.2.2.2))

/-- A replacement template: literal pieces and `$i` group references. -/
inductive Rep where
  | lit (s : String)
  | ref (i : Nat)

/-- Expand a replacement template against the captures of a match
(an unmatched group expands to the empty string, as in JavaScript). -/
def applyRep (caps : Caps) : List Rep → List Char
  | [] => []
  | .lit s :: t => s.data ++ applyRep caps t
  | .ref i :: t => ((caps.lookup i).getD []) ++ applyRep caps t

/-- The model of `s.replace(regex, replacement)` for a non-global regex:
rewrite the leftmost match only; when nothing matches the string is
returned unchanged. -/
def replaceOne (r : Rex) (rep : List Rep) (s : String) : String :=
  match scanM r s.data with
  | none => s
  | some (pre, _, caps, post) => ⟨pre ++ applyRep caps rep ++ post⟩

-- ---------------------------------------------------------------------------
-- Data model (the record shapes produced by the source's collectors)
-- ---------------------------------------------------------------------------

/-- A parsed cron row from `getCronDetailedStatus`. -/
structure Cron where
  id : String
  name : String
  schedule : String
  next : String
  last : String
  status : String
  color : String

/-- The aggregate produced by `getCronDetailedStatus`. -/
structure CronData where
  crons : List Cron
  healthy : Nat
  total : Nat
  errors : List Cron
  neverRun : List Cron

/-- A Things task from `getThingsTasks` (missing optional columns are
`none`, matching the `|| null` defaults). -/
structure Task where
  uuid : String
  title : String
  project : Option String
  area : Option String
  status : String

/-- Token usage of a session (`percent` is the `Math.round` result). -/
structure TokenUsage where
  used : String
  total : String
  percent : Int

/-- An agent record from `getActiveAgents`. -/
structure Agent where
  key : String
  kind : String
  agentType : String
  agentName : String
  age : String
  model : Option String
  tokenUsage : Option TokenUsage
  isActive : Bool

/-- The aggregate produced by `getActiveAgents`. -/
structure AgentData where
  all : List Agent
  active : List Agent
  count : Nat

/-- A rock from `getLifeOSData`. -/
structure Rock where
  number : Nat
  description : String
  owner : String
  done : Bool

/-- A scorecard row from `getLifeOSData`. -/
structure ScoreMetric where
  metric : String
  target : String
  actual : String

/-- One goal entry of the `goals` object of `getLifeOSData`. -/
structure GoalJ where
  target : String
  progress : Int

/-- The `goals` object; every field is optional because the catch branch
of `getLifeOSData` returns a bare `{}`. -/
structure Goals where
  income : Option GoalJ
  body : Option GoalJ
  relationship : Option GoalJ
  freedom : Option GoalJ
  lifeQuality : Option GoalJ

/-- The aggregate produced by `getLifeOSData`.  `goals` is `none` only
for the `lifeOSData = {}` default parameter of `updateDashboardHTML`
(a bare `{}` from the catch branch is `some` of the all-`none` record,
since `{}` is truthy). -/
structure LifeOSData where
  rocks : List Rock
  scorecard : List ScoreMetric
  goals : Option Goals
  rockProgress : Nat
  rocksCompleted : Nat
  rocksTotal : Nat
  daysUntilQ1End : Int

/-- `getThingsTaskCounts` result. -/
structure TaskCounts where
  today : Nat
  inbox : Nat
  total : Nat

/-- The `resilience` part of `getOuraBodyStats` (only `level` is read by
the document patcher; the numeric fields are carried opaquely). -/
structure Resilience where
  level : String
  sleepRecovery : Option ℚ
  daytimeRecovery : Option ℚ
  stress : Option ℚ

/-- The `stress` part of `getOuraBodyStats`. -/
structure OuraStress where
  summary : String
  stressMinutes : Option Int
  recoveryMinutes : Option Int

/-- The `vo2` part of `getOuraBodyStats`. -/
structure OuraVo2 where
  current : Int
  previous : Option Int
  trend : String
  date : Option String

/-- The aggregate produced by `getOuraBodyStats`; all three parts exist on
both code paths, the `Option`s model the `ouraData = {}` default
parameter and the optional-chaining reads. -/
structure OuraData where
  resilience : Option Resilience
  stress : Option OuraStress
  vo2 : Option OuraVo2

/-- `mainSessionContext` of `getSystemStatus`. -/
structure CtxUsage where
  used : Int
  total : Int
  percent : Int

/-- `getSystemStatus` result. -/
structure SystemStatus where
  clawdbotVersion : String
  mainSessionContext : Option CtxUsage
  memoryFileSize : Nat
  notesFileCount : Nat
  dailyLogsCount : Nat

/-- A combined "Needs You" item built in `main` (fields that a given item
kind does not carry are `none`, modelling `undefined`; `link` keeps the
extra distinction `some none` for an explicit `null`). -/
structure NeedsItem where
  type : String
  title : Option String
  context : Option String
  description : Option String
  priority : Option String
  source : Option String
  project : Option String
  link : Option (Option String)

/-- An activity-log entry. -/
structure ActivityEntry where
  timestamp : String
  action : String
  details : String
  source : String

/-- The `extraData` argument of `updateDashboardHTML` (only
`needsYouItems` and `systemStatus` are ever read by it; `none` models the
`extraData = {}` default parameter). -/
structure ExtraData where
  needsYouItems : Option (List NeedsItem)
  systemStatus : Option SystemStatus

/-- `a || b` on two definite strings. -/
def jsOrS (a b : String) : String := if a = "" then b else a

/-- `Math.round((a / b) * 100)` for naturals with `b > 0` (JavaScript
rounds halves up; for the nonnegative rational `100*a/b` that is
`⌊(200*a + b) / (2*b)⌋`). -/
def roundPct (a b : Nat) : Nat := (200 * a + b) / (2 * b)

-- ---------------------------------------------------------------------------
-- Renderers (the build* functions of the source)
-- ---------------------------------------------------------------------------

/-- `formatSchedule` (source lines 1233-1249). -/
def formatSchedule (schedule : String) : String :=
  if schedule = "" then "-"
  else if jsStartsWith schedule "in " then schedule
  else
    match scanM (rseq [Rex.grp 1 (rplus ccDigit), rplus ccWS, Rex.grp 2 (rplus ccDigit)])
        schedule.data with
    | some (_, _, caps, _) =>
        let hour := (caps.lookup 2).getD []
        let h := digitsVal hour
        let ampm := if h ≥ 12 then "pm" else "am"
        let h12 := if h > 12 then h - 12 else (if h = 0 then 12 else h)
        toString h12 ++ ampm
    | none => jsSubstring schedule 0 8

/-- `buildCronGrid` (source lines 1206-1214). -/
def buildCronGrid (crons : List Cron) : String :=
  String.intercalate "\n" ((crons.take 9).map (fun c =>
    let healthClass := if c.status = "error" then "error" else "ok"
    let schedule := formatSchedule (jsOrS c.next c.schedule)
    "            <div class=\"cron-item\"><div class=\"cron-health " ++ healthClass ++
    "\"></div><span class=\"cron-name\">" ++ escapeHtml c.name ++
    "</span><span class=\"cron-schedule\">" ++ escapeHtml schedule ++ "</span></div>"))

/-- `buildActiveWork` (source lines 1216-1231). -/
def buildActiveWork (tasks : List Task) : String :=
  if tasks.length = 0 then
    "          <div style=\"padding: 12px 0; color: var(--text-muted);\">No active tasks today</div>\n"
  else
    String.intercalate "\n" ((tasks.take 4).map (fun t =>
      "          <div class=\"work-item\">\n            <div class=\"work-status waiting\"></div>\n            <div class=\"work-info\">\n              <div class=\"work-title\">" ++
      escapeHtml t.title ++
      "</div>\n              <div class=\"work-project\">" ++
      escapeHtml (jsOrStr t.area (jsOrStr t.project "Personal")) ++
      "</div>\n            </div>\n            <div class=\"work-progress\"><div class=\"work-progress-bar\" style=\"width: 50%\"></div></div>\n          </div>"))

/-- `buildAgentContent` (source lines 1147-1170). -/
def buildAgentContent (agentData : AgentData) : String :=
  if agentData.active.length = 0 then
    "          <div style=\"padding: 12px 0; color: var(--text-muted);\">No active agents</div>\n"
  else
    String.intercalate "\n" ((agentData.active.take 5).map (fun a =>
      let statusClass := if a.isActive then "running" else "waiting"
      let tokenInfo :=
        match a.tokenUsage with
        | some tu => " (" ++ toString tu.percent ++ "% ctx)"
        | none => ""
      let typeIcon :=
        if a.agentType = "main" then "🎯"
        else if a.agentType = "subagent" then "🔧"
        else if a.agentType = "cron" then "⏰"
        else if a.agentType = "slack" then "💬"
        else "🤖"
      "          <div class=\"work-item\">\n            <div class=\"work-status " ++ statusClass ++
      "\"></div>\n            <div class=\"work-info\">\n              <div class=\"work-title\">" ++
      typeIcon ++ " " ++ escapeHtml a.agentName ++ escapeHtml tokenInfo ++
      "</div>\n              <div class=\"work-project\">" ++ escapeHtml a.age ++
      "</div>\n            </div>\n          </div>"))

/-- `buildAgentSection` (source lines 1138-1145). -/
def buildAgentSection (agentData : AgentData) : String :=
  "        <div class=\"card\">\n          <div class=\"card-header\">\n            <div class=\"card-title\">🤖 Active Agents</div>\n            <span class=\"badge green\">" ++
  toString agentData.count ++ "</span>\n          </div>\n" ++
  buildAgentContent agentData ++ "        </div>"

/-- `buildActivityContent` (source lines 1180-1204).  The activity log it
loads from disk and the locale time formatter (`toLocaleTimeString`, a
platform builtin) are passed in explicitly. -/
def buildActivityContent (fmtTime : String → String) (log : List ActivityEntry) : String :=
  let activities := log.take 8
  if activities.length = 0 then
    "          <div style=\"padding: 12px 0; color: var(--text-muted);\">No recent activity</div>\n"
  else
    String.intercalate "\n" (activities.map (fun a =>
      let timeStr := fmtTime a.timestamp
      "          <div class=\"work-item\">\n            <div class=\"work-status\" style=\"background: var(--accent-blue);\"></div>\n            <div class=\"work-info\">\n              <div class=\"work-title\">" ++
      escapeHtml a.action ++ "</div>\n              <div class=\"work-project\">" ++
      escapeHtml timeStr ++
      (if a.details ≠ "" then " — " ++ escapeHtml (jsSubstring a.details 0 50) else "") ++
      "</div>\n            </div>\n          </div>"))

/-- `buildActivitySection` (source lines 1172-1178). -/
def buildActivitySection (fmtTime : String → String) (log : List ActivityEntry) : String :=
  "        <div class=\"card\">\n          <div class=\"card-header\">\n            <div class=\"card-title\">📜 Activity Log</div>\n          </div>\n" ++
  buildActivityContent fmtTime log ++ "        </div>"

/-- `buildQuickActionsSection` (source lines 1260-1280). -/
def buildQuickActionsSection : String :=
  "        <div class=\"card\" id=\"quick-actions\" style=\"grid-column: 1 / -1;\">\n          <div class=\"card-header\">\n            <div class=\"card-title\">⚡ Quick Actions</div>\n          </div>\n          <div style=\"display: flex; gap: 12px; flex-wrap: wrap;\">\n            <button class=\"btn btn-approve\" onclick=\"triggerAction(\x27refresh\x27)\" style=\"min-width: 140px;\">\n              🔄 Refresh Dashboard\n            </button>\n            <button class=\"btn btn-approve\" onclick=\"triggerAction(\x27sessions\x27)\" style=\"min-width: 140px;\">\n              🤖 Check Sessions\n            </button>\n            <button class=\"btn btn-approve\" onclick=\"triggerAction(\x27things\x27)\" style=\"min-width: 140px;\">\n              📋 Sync Things\n            </button>\n            <button class=\"btn btn-approve\" onclick=\"triggerAction(\x27crons\x27)\" style=\"min-width: 140px;\">\n              ⏰ View Cron Logs\n            </button>\n          </div>\n        </div>"

/-- `buildSystemStatusSection` (source lines 1282-1309). -/
def buildSystemStatusSection (ss : SystemStatus) : String :=
  let contextPercent : Int :=
    match ss.mainSessionContext with
    | some c => c.percent
    | none => 0
  let contextColor :=
    if contextPercent > 80 then "red" else if contextPercent > 60 then "orange" else "green"
  "        <div class=\"card\" id=\"system-status\">\n          <div class=\"card-header\">\n            <div class=\"card-title\">🖥️ System Status</div>\n          </div>\n          <div style=\"display: grid; grid-template-columns: repeat(2, 1fr); gap: 12px;\">\n            <div class=\"health-item\">\n              <div class=\"health-value\" style=\"font-size: 16px;\">v" ++
  escapeHtml ss.clawdbotVersion ++
  "</div>\n              <div class=\"health-label\">Clawdbot</div>\n            </div>\n            <div class=\"health-item\">\n              <div class=\"health-value " ++
  contextColor ++ "\" style=\"font-size: 20px;\">" ++ toString contextPercent ++
  "%</div>\n              <div class=\"health-label\">Main Context</div>\n            </div>\n            <div class=\"health-item\">\n              <div class=\"health-value\" style=\"font-size: 18px;\">" ++
  toString ss.memoryFileSize ++
  "KB</div>\n              <div class=\"health-label\">Memory Files</div>\n            </div>\n            <div class=\"health-item\">\n              <div class=\"health-value\" style=\"font-size: 18px;\">" ++
  toString ss.notesFileCount ++
  "</div>\n              <div class=\"health-label\">Notes Files</div>\n            </div>\n          </div>\n        </div>"

/-- An item rendered by `buildNeedsYouSection`: either a freshly computed
item or an element of the prior snapshot's `needsJordan` array. -/
inductive NeedsSrc where
  | fresh (it : NeedsItem)
  | fromState (j : JVal)

/-- Dynamic property read on a needs item.  For snapshot-held items the
fields are string-valued (the only shape the pipeline ever writes). -/
def NeedsSrc.prop : NeedsSrc → String → Option String
  | .fromState j, k =>
      match j.get k with
      | some (JVal.jstr s) => some s
      | _ => none
  | .fresh it, k =>
      if k = "type" then some it.type
      else if k = "title" then it.title
      else if k = "context" then it.context
      else if k = "description" then it.description
      else if k = "priority" then it.priority
      else if k = "source" then it.source
      else if k = "project" then it.project
      else none

/-- The per-item fragment of `buildNeedsYouSection` (source lines
1323-1335). -/
def needsItemHtml (item : NeedsSrc) : String :=
  let priorityClass :=
    if item.prop "priority" = some "P1" then "var(--accent-red)" else "var(--accent-orange)"
  let typeIcon :=
    if item.prop "type" = some "awaiting" then "📨"
    else if item.prop "type" = some "task" then "✅"
    else "📋"
  "          <div class=\"need-item\" style=\"border-left-color: " ++ priorityClass ++
  ";\">\n            <h4>" ++ escapeHtmlOpt (item.prop "title") ++
  "</h4>\n            <p>" ++
  escapeHtml (jsOrStr (item.prop "context") (jsOrStr (item.prop "description") "")) ++
  "</p>\n            <div class=\"need-meta\">\n              <span>" ++ typeIcon ++ " " ++
  escapeHtml (jsOrStr (item.prop "source")
    (jsOrStr (item.prop "project") (jsOrStr (item.prop "type") ""))) ++
  "</span>\n              <span>⚡ " ++ escapeHtml (jsOrStr (item.prop "priority") "P2") ++
  "</span>\n            </div>\n          </div>"

/-- `buildNeedsYouSection` (source lines 1311-1344): up to two existing
high-priority snapshot items first, then up to three fresh items, capped
at five in total. -/
def buildNeedsYouSection (needsYouItems : List NeedsItem) (state : JVal) : String :=
  let existingItems : List JVal :=
    match state.get "needsJordan" with
    | some (JVal.jarr xs) => xs
    | _ => []
  let allItems : List NeedsSrc :=
    ((existingItems.take 2).map NeedsSrc.fromState ++
      (needsYouItems.take 3).map NeedsSrc.fresh).take 5
  let itemCount := allItems.length
  let itemsHtml := String.intercalate "\n" (allItems.map needsItemHtml)
  "        <div class=\"card needs-jordan\">\n          <div class=\"card-header\">\n            <div class=\"card-title\">🔴 NEEDS YOU</div>\n            <span class=\"badge\">" ++
  toString itemCount ++ "</span>\n          </div>\n" ++ itemsHtml ++ "\n        </div>"

/-- `buildDetailedCronGrid` (source lines 1346-1370). -/
def buildDetailedCronGrid (crons : List Cron) : String :=
  String.intercalate "\n" ((crons.take 12).map (fun c =>
    let healthClass :=
      if c.status = "error" then "error"
      else if c.last = "-" || c.last = "never" then "warning"
      else "ok"
    let tooltipText :=
      if c.status = "error" then "ERROR - Check logs"
      else if c.last = "-" || c.last = "never" then "Never run"
      else "Last: " ++ jsOrS c.last "never"
    let schedule := formatSchedule (jsOrS c.next c.schedule)
    let lastRun := if c.last ≠ "" && c.last ≠ "-" then " (" ++ c.last ++ ")" else ""
    "            <div class=\"cron-item\" title=\"" ++ escapeHtml tooltipText ++
    "\" style=\"" ++ (if healthClass = "warning" then "opacity: 0.7;" else "") ++
    "\">\n              <div class=\"cron-health " ++
    (if healthClass = "warning" then "ok" else healthClass) ++ "\" style=\"" ++
    (if healthClass = "warning" then "background: var(--accent-orange);" else "") ++
    "\"></div>\n              <span class=\"cron-name\">" ++ escapeHtml c.name ++
    "</span>\n              <span class=\"cron-schedule\">" ++ escapeHtml schedule ++
    escapeHtml lastRun ++ "</span>\n            </div>"))

/-- `buildRocksSection` (source lines 1071-1108). -/
def buildRocksSection (lifeOS : LifeOSData) : String :=
  let progressPercent : Nat :=
    if lifeOS.rocksTotal > 0 then roundPct lifeOS.rocksCompleted lifeOS.rocksTotal else 0
  let urgencyClass :=
    if lifeOS.daysUntilQ1End ≤ 30 then "urgent"
    else if lifeOS.daysUntilQ1End ≤ 45 then "soon"
    else ""
  let rocksHtml := String.intercalate "\n" (lifeOS.rocks.map (fun r =>
    let checkClass := if r.done then "done" else ""
    let nameClass := if r.done then "done" else ""
    "            <div class=\"milestone-item\">\n              <div class=\"milestone-check " ++
    checkClass ++
    "\"></div>\n              <div class=\"milestone-info\">\n                <div class=\"milestone-name " ++
    nameClass ++ "\">" ++ escapeHtml r.description ++
    "</div>\n              </div>\n            </div>"))
  "        <div class=\"card\" id=\"q1-rocks\" style=\"grid-column: 1 / -1; background: linear-gradient(135deg, #0a1a1a 0%, var(--bg-secondary) 100%); border-color: var(--accent-purple); border-width: 2px;\">\n          <div class=\"card-header\">\n            <div class=\"card-title\" style=\"color: var(--accent-purple);\">🎯 Q1 2026 Rocks</div>\n            <div style=\"display: flex; align-items: center; gap: 12px;\">\n              <span class=\"badge " ++
  (if urgencyClass = "urgent" then "" else if urgencyClass = "soon" then "orange" else "blue") ++
  "\">" ++ toString lifeOS.daysUntilQ1End ++
  "d left</span>\n              <span class=\"badge " ++
  (if lifeOS.rocksCompleted > 0 then "green" else "") ++ "\">" ++
  toString lifeOS.rocksCompleted ++ "/" ++ toString lifeOS.rocksTotal ++
  "</span>\n            </div>\n          </div>\n          <div class=\"goal-progress-container\" style=\"margin-bottom: 16px;\">\n            <div class=\"goal-progress-header\">\n              <span class=\"goal-progress-label\">Overall Q1 Progress</span>\n              <span class=\"goal-progress-value\">" ++
  toString progressPercent ++
  "%</span>\n            </div>\n            <div class=\"goal-progress-bar\">\n              <div class=\"goal-progress-fill\" style=\"width: " ++
  toString progressPercent ++
  "%; background: linear-gradient(90deg, var(--accent-purple), var(--accent-blue));\"></div>\n            </div>\n          </div>\n          <div style=\"display: grid; grid-template-columns: 1fr 1fr; gap: 8px;\">\n" ++
  rocksHtml ++ "\n          </div>\n        </div>"

/-- `buildScorecardSection` (source lines 1110-1136). -/
def buildScorecardSection (lifeOS : LifeOSData) : String :=
  let metricsHtml := String.intercalate "\n" (lifeOS.scorecard.map (fun m =>
    let actual := jsOrS m.actual "—"
    let hasValue := m.actual ≠ "" && m.actual ≠ "—" && jsTrim m.actual ≠ ""
    let statusColor := if hasValue then "var(--accent-green)" else "var(--text-muted)"
    "            <div style=\"display: flex; justify-content: space-between; align-items: center; padding: 8px 0; border-bottom: 1px solid var(--border);\">\n              <span style=\"font-size: 14px;\">" ++
    escapeHtml m.metric ++
    "</span>\n              <div style=\"display: flex; align-items: center; gap: 12px;\">\n                <span style=\"font-size: 12px; color: var(--text-muted);\">Target: " ++
    escapeHtml m.target ++
    "</span>\n                <span style=\"font-size: 16px; font-weight: 600; color: " ++
    statusColor ++ ";\">" ++ escapeHtml actual ++
    "</span>\n              </div>\n            </div>"))
  "        <div class=\"card\" id=\"weekly-scorecard\" style=\"grid-column: 1 / -1;\">\n          <div class=\"card-header\">\n            <div class=\"card-title\">📊 Weekly Scorecard</div>\n            <span class=\"badge blue\">This Week</span>\n          </div>\n          <div>\n" ++
  metricsHtml ++ "\n          </div>\n        </div>"

-- ---------------------------------------------------------------------------
-- The document patcher: updateDashboardHTML (source lines 793-1069)
-- ---------------------------------------------------------------------------

/-- `a?.b || n` on an optional integer field (note `0` is falsy). -/
def jsOrInt (a : Option Int) (b : Int) : Int :=
  match a with
  | none => b
  | some x => if x = 0 then b else x

/-- Shorthand for a sequence of spaces and a literal; the patterns below
spell out the source regexes with `wsS` for `\s*`, `dP` for `\d+`,
`laz` for `[\s\S]*?`, `nq` for `[^"]*` and `nl1` for `[^<]+`. -/
def wsS : Rex := Rex.starG ccWS
/-- `\d+`. -/
def dP : Rex := rplus ccDigit
/-- `[\s\S]*?`. -/
def laz : Rex := Rex.starLany
/-- `[^"]*`. -/
def nq : Rex := Rex.starG ccNotQuote
/-- `[^<]+`. -/
def nl1 : Rex := rplus ccNotLt

/-- The pure text transformation performed by `updateDashboardHTML` on the
document buffer: every `html.replace` of the source, in source order.
The ambient inputs the JavaScript reads on the side — the formatted
current time, the locale time formatter used by the activity feed and
the activity log loaded from disk — are explicit parameters. -/
def updateDashboardHTMLText (state : JVal) (cronData : CronData) (tasks : List Task)
    (agentData : AgentData) (ouraData : OuraData) (lifeOSData : LifeOSData)
    (_taskCounts : TaskCounts) (extraData : ExtraData) (timeStr : String)
    (fmtTime : String → String) (activityLog : List ActivityEntry)
    (html : String) : String :=
  -- 1. Update timestamp
  let html := replaceOne (rseq [rlit "Updated: ", nl1])
    [.lit ("Updated: " ++ timeStr)] html
  -- 2. Update System Health numbers
  let html := replaceOne (rseq
      [Rex.grp 1 (rseq [rlit "<div class=\"health-value", nq, rlit "\">"]),
       dP, rlit "/", dP,
       Rex.grp 2 (rseq [rlit "</div>", wsS, rlit "<div class=\"health-label\">Crons OK"])])
    [.ref 1, .lit (toString cronData.healthy ++ "/" ++ toString cronData.total), .ref 2] html
  -- Update health value color based on status
  let cronHealthColor := if cronData.errors.length > 0 then "orange" else "green"
  let html := replaceOne (rseq
      [rlit "<div class=\"health-value ", rplus ccWord, rlit "\">",
       Rex.grp 1 (rseq [dP, rlit "/", dP]),
       rlit "</div>", wsS, rlit "<div class=\"health-label\">Crons OK"])
    [.lit ("<div class=\"health-value " ++ cronHealthColor ++ "\">" ++
      toString cronData.healthy ++ "/" ++ toString cronData.total ++
      "</div>\n              <div class=\"health-label\">Crons OK")] html
  let html := replaceOne (rseq
      [Rex.grp 1 (rseq [rlit "<div class=\"health-value", nq, rlit "\">"]), dP,
       Rex.grp 2 (rseq [rlit "</div>", wsS, rlit "<div class=\"health-label\">Agents"])])
    [.ref 1, .lit (toString agentData.count), .ref 2] html
  let html := replaceOne (rseq
      [Rex.grp 1 (rseq [rlit "<div class=\"health-value", nq, rlit "\">"]), dP,
       Rex.grp 2 (rseq [rlit "</div>", wsS, rlit "<div class=\"health-label\">Tasks"])])
    [.ref 1, .lit (toString tasks.length), .ref 2] html
  let html := replaceOne (rseq
      [Rex.grp 1 (rseq [rlit "<div class=\"health-value", nq, rlit "\">"]), dP,
       Rex.grp 2 (rseq [rlit "</div>", wsS, rlit "<div class=\"health-label\">Blocked"])])
    [.ref 1, .lit (toString cronData.errors.length), .ref 2] html
  -- Update blocked color
  let blockedColor := if cronData.errors.length > 0 then "red" else ""
  let html := replaceOne (rseq
      [rlit "<div class=\"health-value", nq, rlit "\">", Rex.grp 1 dP,
       rlit "</div>", wsS, rlit "<div class=\"health-label\">Blocked"])
    [.lit ("<div class=\"health-value " ++ blockedColor ++ "\">" ++
      toString cronData.errors.length ++
      "</div>\n              <div class=\"health-label\">Blocked")] html
  -- 2b. Update Body Health section (Oura data)
  let html :=
    match ouraData.resilience with
    | none => html
    | some res =>
      let resLevel := jsOrS res.level "unknown"
      let resColor :=
        if resLevel = "strong" then "green"
        else if resLevel = "adequate" then "green"
        else if resLevel = "limited" then "orange"
        else "red"
      let html := replaceOne (rseq
          [rlit "<div class=\"health-value", nq,
           rlit "\" id=\"resilience-value\">", nl1, rlit "</div>"])
        [.lit ("<div class=\"health-value " ++ resColor ++ "\" id=\"resilience-value\">" ++
          escapeHtml resLevel ++ "</div>")] html
      let stressSummary := jsOrStr (ouraData.stress.map (·.summary)) "unknown"
      let stressColor :=
        if stressSummary = "restored" then "green"
        else if stressSummary = "normal" then "orange"
        else if stressSummary = "stressful" then "red"
        else ""
      let html := replaceOne (rseq
          [rlit "<div class=\"health-value", nq,
           rlit "\" id=\"stress-value\">", nl1, rlit "</div>"])
        [.lit ("<div class=\"health-value " ++ stressColor ++ "\" id=\"stress-value\">" ++
          escapeHtml stressSummary ++ "</div>")] html
      let vo2 := jsOrInt (ouraData.vo2.map (·.current)) 0
      let vo2Trend := jsOrStr (ouraData.vo2.map (·.trend)) ""
      let trendColor :=
        if vo2Trend = "↑" then "var(--accent-green)"
        else if vo2Trend = "↓" then "var(--accent-orange)"
        else "var(--text-muted)"
      let vo2Display :=
        if vo2 > 0 then
          toString vo2 ++ " <span style=\"font-size: 14px; color: " ++ trendColor ++
          ";\">" ++ vo2Trend ++ "</span>"
        else "N/A"
      replaceOne (rseq
          [rlit "<div class=\"health-value", nq, rlit "\" id=\"vo2-value\">", laz,
           rlit "</div>",
           Rex.grp 1 (rseq [wsS, rlit "<div class=\"health-label\">VO2 Max"])])
        [.lit ("<div class=\"health-value\" id=\"vo2-value\">" ++ vo2Display ++ "</div>"),
         .ref 1] html
  -- 3. Update Needs Jordan badge count
  let needsCount : Nat :=
    match state.get "needsJordan" with
    | some (JVal.jarr xs) => if xs.length = 0 then 3 else xs.length
    | some (JVal.jstr s) => if s.length = 0 then 3 else s.length
    | _ => 3
  let html := replaceOne (rseq
      [Rex.grp 1 (rseq [rlit "<div class=\"card-title\">🔴 NEEDS YOU</div>", wsS,
        rlit "<span class=\"badge\">"]), dP, Rex.grp 2 (rlit "</span>")])
    [.ref 1, .lit (toString needsCount), .ref 2] html
  -- 4. Update cron badge
  let html := replaceOne (rseq
      [Rex.grp 1 (rseq [rlit "<div class=\"card-title\">🔄 Cron Jobs</div>", wsS,
        rlit "<span class=\"badge", nq, rlit "\">"]), dP, rlit "/", dP,
       Rex.grp 2 (rlit "</span>")])
    [.ref 1, .lit (toString cronData.healthy ++ "/" ++ toString cronData.total), .ref 2] html
  -- 5. Rebuild cron grid
  let cronGridHtml := buildCronGrid cronData.crons
  let html := replaceOne (rseq
      [rlit "<div class=\"cron-grid\">", laz, rlit "</div>",
       Rex.grp 1 (rseq [wsS, rlit "</div>", wsS, rlit "</div>", wsS, rlit "</div>", wsS,
         rlit "<!-- LIFE OS VIEW -->"])])
    [.lit ("<div class=\"cron-grid\">\n" ++ cronGridHtml ++ "          </div>"), .ref 1] html
  -- 6. Rebuild active work section
  let activeWorkHtml := buildActiveWork tasks
  let html := replaceOne (rseq
      [Rex.grp 1 (rseq [rlit "<div class=\"card-header\">", wsS,
         rlit "<div class=\"card-title\">🏃 Active Work</div>", wsS, rlit "</div>"]),
       laz,
       Rex.grp 2 (rseq [rlit "</div>", wsS, rlit "<div class=\"card\">", wsS,
         rlit "<div class=\"card-header\">", wsS,
         rlit "<div class=\"card-title\">⏰ Coming Up"])])
    [.ref 1, .lit ("\n" ++ activeWorkHtml ++ "        "), .ref 2] html
  -- 7. Rebuild Agent Status Panel and Activity Log sections
  let newSections := buildAgentSection agentData ++ "\n\n" ++
    buildActivitySection fmtTime activityLog
  let cronCardAnchor : Rex := rseq
    [rlit "<div class=\"card\" style=\"grid-column: 1 / -1;\">", wsS,
     rlit "<div class=\"card-header\">", wsS, rlit "<div class=\"card-title\">🔄 Cron Jobs"]
  let html :=
    if jsIncludes html "🤖 Active Agents" then
      -- Remove existing sections and rebuild
      replaceOne (rseq
          [wsS, rlit "<div class=\"card\">", wsS, rlit "<div class=\"card-header\">", wsS,
           rlit "<div class=\"card-title\">🤖 Active Agents", laz,
           rlit "</div>", wsS, rlit "</div>", wsS,
           rlit "<div class=\"card\">", wsS, rlit "<div class=\"card-header\">", wsS,
           rlit "<div class=\"card-title\">📜 Activity Log", laz,
           rlit "</div>", wsS, rlit "</div>", wsS,
           Rex.grp 1 cronCardAnchor])
        [.lit ("\n\n" ++ newSections ++ "\n        "), .ref 1] html
    else
      -- Insert new sections before the Cron Jobs card
      replaceOne (Rex.grp 1 cronCardAnchor)
        [.lit (newSections ++ "\n        "), .ref 1] html
  -- 7b. Update "Needs You" section with real data
  let html :=
    match extraData.needsYouItems with
    | none => html
    | some needsYouItems =>
      let needsYouHtml := buildNeedsYouSection needsYouItems state
      replaceOne (rseq
          [rlit "<div class=\"card needs-jordan\">", laz, rlit "</div>", wsS,
           rlit "</div>", wsS, Rex.grp 1 (rlit "<div class=\"card\" id=\"approval-queue\"")])
        [.lit (needsYouHtml ++ "\n        \n        "), .ref 1] html
  -- 7c. Add Quick Actions panel (after approval queue)
  let quickActionsHtml := buildQuickActionsSection
  let html :=
    if !(jsIncludes html "id=\"quick-actions\"") then
      replaceOne (rseq
          [Rex.grp 1 (rseq [rlit "</div>", wsS, rlit "</div>", wsS]),
           Rex.grp 2 (rseq [rlit "<div class=\"card\">", wsS,
             rlit "<div class=\"card-header\">", wsS,
             rlit "<div class=\"card-title\">📊 System Health"])])
        [.ref 1, .lit ("\n" ++ quickActionsHtml ++ "\n        \n        "), .ref 2] html
    else html
  -- 7d. Add/Update System Status panel
  let html :=
    match extraData.systemStatus with
    | none => html
    | some ss =>
      let systemStatusHtml := buildSystemStatusSection ss
      if jsIncludes html "id=\"system-status\"" then
        replaceOne (rseq
            [rlit "<div class=\"card\" id=\"system-status\">", laz,
             rlit "</div>", wsS, rlit "</div>", wsS, rlit "</div>"])
          [.lit systemStatusHtml] html
      else
        -- Insert after Body card
        replaceOne (rseq
            [Rex.grp 1 (rseq [rlit "</div>", wsS, rlit "</div>", wsS]),
             Rex.grp 2 (rseq [rlit "<div class=\"card\">", wsS,
               rlit "<div class=\"card-header\">", wsS,
               rlit "<div class=\"card-title\">🏃 Active Work"])])
          [.ref 1, .lit ("\n" ++ systemStatusHtml ++ "\n        \n        "), .ref 2] html
  -- 7e. Use detailed cron grid with colors
  let detailedCronHtml := buildDetailedCronGrid cronData.crons
  let html := replaceOne (rseq
      [rlit "<div class=\"cron-grid\">", laz, rlit "</div>",
       Rex.grp 1 (rseq [wsS, rlit "</div>", wsS, rlit "</div>", wsS, rlit "</div>", wsS,
         rlit "<!-- LIFE OS VIEW -->"])])
    [.lit ("<div class=\"cron-grid\">\n" ++ detailedCronHtml ++ "          </div>"), .ref 1]
    html
  -- 8. Update Life OS tab with real data
  let html :=
    match lifeOSData.goals with
    | none => html
    | some goals =>
      let incomeProgress := jsOrInt (goals.income.map (·.progress)) 0
      let html := replaceOne (rseq
          [Rex.grp 1 (rlit "<div class=\"goal-progress-fill income\" style=\"width: "), dP,
           Rex.grp 2 (rlit "%\"></div>")])
        [.ref 1, .lit (toString incomeProgress), .ref 2] html
      let html := replaceOne (rseq
          [Rex.grp 1 (rlit "<span class=\"goal-progress-value\">"), dP,
           Rex.grp 2 (rseq [rlit "%</span>", laz,
             rlit "<div class=\"goal-progress-fill income\""])])
        [.ref 1, .lit (toString incomeProgress), .ref 2] html
      let bodyProgress := jsOrInt (goals.body.map (·.progress)) 0
      let html := replaceOne (rseq
          [Rex.grp 1 (rlit "<div class=\"goal-progress-fill body\" style=\"width: "), dP,
           Rex.grp 2 (rlit "%\"></div>")])
        [.ref 1, .lit (toString bodyProgress), .ref 2] html
      let html := replaceOne (rseq
          [Rex.grp 1 (rlit "<span class=\"goal-progress-value\">"), dP,
           Rex.grp 2 (rseq [rlit "%</span>", laz,
             rlit "<div class=\"goal-progress-fill body\""])])
        [.ref 1, .lit (toString bodyProgress), .ref 2] html
      let relationshipProgress := jsOrInt (goals.relationship.map (·.progress)) 0
      let html := replaceOne (rseq
          [Rex.grp 1 (rlit "<div class=\"goal-progress-fill love\" style=\"width: "), dP,
           Rex.grp 2 (rlit "%\"></div>")])
        [.ref 1, .lit (toString relationshipProgress), .ref 2] html
      let html := replaceOne (rseq
          [Rex.grp 1 (rlit "<span class=\"goal-progress-value\">"), dP,
           Rex.grp 2 (rseq [rlit "%</span>", laz,
             rlit "<div class=\"goal-progress-fill love\""])])
        [.ref 1, .lit (toString relationshipProgress), .ref 2] html
      let freedomProgress := jsOrInt (goals.freedom.map (·.progress)) 0
      let html := replaceOne (rseq
          [Rex.grp 1 (rlit "<div class=\"goal-progress-fill freedom\" style=\"width: "), dP,
           Rex.grp 2 (rlit "%\"></div>")])
        [.ref 1, .lit (toString freedomProgress), .ref 2] html
      let html := replaceOne (rseq
          [Rex.grp 1 (rlit "<span class=\"goal-progress-value\">"), dP,
           Rex.grp 2 (rseq [rlit "%</span>", laz,
             rlit "<div class=\"goal-progress-fill freedom\""])])
        [.ref 1, .lit (toString freedomProgress), .ref 2] html
      let joyProgress := jsOrInt (goals.lifeQuality.map (·.progress)) 60
      let html := replaceOne (rseq
          [Rex.grp 1 (rlit "<div class=\"goal-progress-fill joy\" style=\"width: "), dP,
           Rex.grp 2 (rlit "%\"></div>")])
        [.ref 1, .lit (toString joyProgress), .ref 2] html
      replaceOne (rseq
          [Rex.grp 1 (rlit "<span class=\"goal-progress-value\">"), dP,
           Rex.grp 2 (rseq [rlit "%</span>", laz,
             rlit "<div class=\"goal-progress-fill joy\""])])
        [.ref 1, .lit (toString joyProgress), .ref 2] html
  -- 9. Insert/Update Q1 Rocks section in Life OS tab
  let html :=
    if lifeOSData.rocks.length > 0 then
      let rocksHtml := buildRocksSection lifeOSData
      if jsIncludes html "id=\"q1-rocks\"" then
        -- Replace existing rocks section
        replaceOne (rseq
            [rlit "<div class=\"card\" id=\"q1-rocks\"", laz,
             rlit "</div>", wsS, rlit "</div>", wsS,
             Rex.grp 1 (Rex.alt
               (rseq [rlit "</div>", wsS, rlit "</div>", wsS, rlit "<!-- LIFE OS VIEW -->"])
               (rlit "<div class=\"card\" id=\"weekly-scorecard\""))])
          [.lit (rocksHtml ++ "\n        "), .ref 1] html
      else
        -- Insert after goals-grid closing div
        replaceOne (Rex.grp 1 (Rex.alt
            (rseq [rlit "</div>", wsS, rlit "<!-- goals-grid end -->"])
            (rseq [rlit "</div>", wsS, rlit "</div>", wsS, rlit "</div>", wsS,
              rlit "<!-- LIFE OS VIEW -->"])))
          [.lit ("</div>\n\n" ++ rocksHtml ++ "\n      "), .ref 1] html
    else html
  -- 10. Insert/Update Weekly Scorecard section
  let html :=
    if lifeOSData.scorecard.length > 0 then
      let scorecardHtml := buildScorecardSection lifeOSData
      if jsIncludes html "id=\"weekly-scorecard\"" then
        replaceOne (rseq
            [rlit "<div class=\"card\" id=\"weekly-scorecard\"", laz,
             rlit "</div>", wsS, rlit "</div>", wsS,
             Rex.grp 1 (Rex.alt
               (rseq [rlit "</div>", wsS, rlit "</div>", wsS,
                 rlit "<!-- LIFE OS VIEW end -->"])
               (rlit "<footer"))])
          [.lit (scorecardHtml ++ "\n        "), .ref 1] html
      else html
    else html
  html

-- ---------------------------------------------------------------------------
-- getCronDetailedStatus row parsing (source lines 202-245)
-- ---------------------------------------------------------------------------

/-- The per-line parser inside `getCronDetailedStatus` (source lines
208-233): fixed-width slicing into id/name/schedule/next/last/status,
trimming, lower-casing of the status column, the empty-id/name drop and
the derived health color, in the source's branch order. -/
def parseCronLine (line : String) : Option Cron :=
  let id := jsTrim (jsSubstring line 0 36)
  let name := jsTrim (jsSubstring line 37 61)
  let schedule := jsTrim (jsSubstring line 61 94)
  let next := jsTrim (jsSubstring line 94 105)
  let last := jsTrim (jsSubstring line 105 116)
  let status := jsToLower (jsTrim (jsSubstring line 116 126))
  if id = "" || name = "" then none
  else
    let color :=
      if status = "error" then "red"
      else if status = "running" then "blue"
      else if last = "-" || last = "never" then "orange"
      else "green"
    some ⟨id, name, schedule, next, last, jsOrS status "unknown", color⟩

/-- The (trimmed, lower-cased) status column of a cron row, before the
`|| 'unknown'` default. -/
def cronStatusCol (line : String) : String :=
  jsToLower (jsTrim (jsSubstring line 116 126))

-- ---------------------------------------------------------------------------
-- parseAge (source lines 492-507)
-- ---------------------------------------------------------------------------

/-- The regex `/(\d+)(m|h|d)/` of `parseAge`. -/
def ageRex : Rex :=
  rseq [Rex.grp 1 (rplus ccDigit),
        Rex.grp 2 (Rex.alt (rlit "m") (Rex.alt (rlit "h") (rlit "d")))]

/-- `parseAge` (source lines 492-507).  Total and `Nat`-valued: the
source never throws and always returns an integer number of minutes. -/
def parseAge (ageStr : String) : Nat :=
  if ageStr = "" then 9999
  else if ageStr = "just now" then 0
  else
    match scanM ageRex ageStr.data with
    | some (_, _, caps, _) =>
        let num := digitsVal ((caps.lookup 1).getD [])
        let unit := (caps.lookup 2).getD []
        if unit = ['m'] then num
        else if unit = ['h'] then num * 60
        else if unit = ['d'] then num * 60 * 24
        else 9999
    | none => 9999

-- ---------------------------------------------------------------------------
-- getLifeOSData goal progress (source lines 302-326)
-- ---------------------------------------------------------------------------

/-- JavaScript number results of the progress arithmetic: a rational, or
the `NaN` / `Infinity` values division by zero produces. -/
inductive JNum where
  | nan
  | inf (pos : Bool)
  | num (q : ℚ)
  deriving DecidableEq

/-- JavaScript division `a / b` (for `b = 0`: `0/0` is `NaN`, otherwise a
signed infinity). -/
def jdiv (a b : ℚ) : JNum :=
  if b = 0 then (if a = 0 then .nan else .inf (a > 0)) else .num (a / b)

/-- Multiplication of a JavaScript number by a rational constant. -/
def jmul (x : JNum) (c : ℚ) : JNum :=
  match x with
  | .nan => .nan
  | .inf p => if c = 0 then .nan else .inf (p = (c > 0))
  | .num q => .num (q * c)

/-- `Math.round` (half-up on the rationals; fixed on `NaN`/`Infinity`). -/
def jround : JNum → JNum
  | .num q => .num ((⌊q + 1 / 2⌋ : ℤ) : ℚ)
  | x => x

/-- `x || 0` on a JavaScript number (`NaN` and `0` are falsy). -/
def jorZero : JNum → JNum
  | .nan => .num 0
  | .inf p => .inf p
  | .num q => if q = 0 then .num 0 else .num q

/-- `Math.round((sub.filter(done).length / sub.length) * 100) || 0`, the
per-category progress of `getLifeOSData` (source lines 322-325). -/
def goalProgressJS (sub : List Rock) : JNum :=
  jorZero (jround (jmul
    (jdiv ((sub.filter (·.done)).length : ℚ) ((sub.length : ℚ))) 100))

/-- The fixed rock-number buckets (source lines 317-320). -/
def incomeRocks (rocks : List Rock) : List Rock :=
  rocks.filter (fun r => [1, 2, 3, 5, 8].contains r.number)
/-- Rocks counted for the body goal. -/
def bodyRocks (rocks : List Rock) : List Rock :=
  rocks.filter (fun r => [4].contains r.number)
/-- Rocks counted for the relationship goal. -/
def relationshipRocks (rocks : List Rock) : List Rock :=
  rocks.filter (fun r => [6].contains r.number)
/-- Rocks counted for the freedom goal. -/
def freedomRocks (rocks : List Rock) : List Rock :=
  rocks.filter (fun r => [3, 5, 7].contains r.number)

/-- `rocksTotal > 0 ? Math.round((rocksCompleted / rocksTotal) * 100) : 0`,
the overall rock progress (source lines 303-305). -/
def rockProgressJS (rocks : List Rock) : JNum :=
  if rocks.length > 0 then
    jround (jmul (jdiv ((rocks.filter (·.done)).length : ℚ) ((rocks.length : ℚ))) 100)
  else .num 0

-- ---------------------------------------------------------------------------
-- Activity log (source lines 650-678)
-- ---------------------------------------------------------------------------

/-- `MAX_ACTIVITY_ITEMS` (source line 25). -/
def MAX_ACTIVITY_ITEMS : Nat := 50

/-- The list `saveActivityLog` persists: its argument truncated to the
most recent `MAX_ACTIVITY_ITEMS` entries (source lines 661-667). -/
def saveActivityLogData (activities : List ActivityEntry) : List ActivityEntry :=
  activities.take MAX_ACTIVITY_ITEMS

/-- The collection-level effect of one `logActivity` call (source lines
669-678): prepend the new entry to the loaded log, then save-truncate. -/
def logActivityData (log : List ActivityEntry) (e : ActivityEntry) : List ActivityEntry :=
  saveActivityLogData (e :: log)

/-- A sequence of `logActivity` calls starting from an initial persisted
log. -/
def appendAll (log : List ActivityEntry) (es : List ActivityEntry) : List ActivityEntry :=
  es.foldl logActivityData log

-- ---------------------------------------------------------------------------
-- updateStateFile: the merge of the loaded snapshot (source lines 717-787)
-- ---------------------------------------------------------------------------

/-- `o.k1.k2 = v`: JavaScript property assignment one level down (mutating
the object held at `k1`; a no-op when `k1` does not hold an object). -/
def jsetIn (o : JVal) (k1 k2 : String) (v : JVal) : JVal :=
  match o.get k1 with
  | some (JVal.jobj fs) => o.set k1 (JVal.jobj (JVal.set.setField fs k2 v))
  | _ => o

/-- String field read. -/
def jgetStr (o : JVal) (k : String) : Option String :=
  match o.get k with
  | some (JVal.jstr s) => some s
  | _ => none

/-- Numeric field read. -/
def jgetNum (o : JVal) (k : String) : Option Int :=
  match o.get k with
  | some (JVal.jnum n) => some n
  | _ => none

/-- The merge `updateStateFile` performs on the loaded snapshot object
(source lines 729-777), assignment by assignment in source order; the
prior snapshot (`{}` when the load failed) and the current ISO timestamp
are passed in. -/
def updateStateFileState (prior : JVal) (cronData : CronData) (tasks : List Task)
    (agentData : AgentData) (nowIso : String) : JVal :=
  let state := prior
  let state := state.set "lastUpdated" (jstr nowIso)
  let state := state.set "health" (jsOrGet (state.get "health") (jobj []))
  let state := jsetIn state "health" "crons" (jobj
    [("healthy", jnum cronData.healthy), ("total", jnum cronData.total),
     ("status", jstr (if cronData.errors.length > 0 then "warning" else "ok"))])
  let state := jsetIn state "health" "agents" (jobj
    [("active", jnum agentData.count), ("idle", jnum 0), ("status", jstr "ok")])
  let state := jsetIn state "health" "active" (jnum tasks.length)
  let state := jsetIn state "health" "blocked" (jnum cronData.errors.length)
  let state := state.set "crons" (jarr (cronData.crons.map (fun c => jobj
    [("name", jstr c.name),
     ("schedule", jstr (jsOrS c.next c.schedule)),
     ("health", jstr (if c.status = "error" then "error" else "ok")),
     ("lastRun", jstr c.last),
     ("error", if c.status = "error" then jstr "See cron logs" else jnull)])))
  let state := state.set "agents" (jarr (agentData.active.map (fun a => jobj
    [("key", jstr a.key), ("name", jstr a.agentName), ("type", jstr a.agentType),
     ("age", jstr a.age),
     ("tokenUsage",
       match a.tokenUsage with
       | some tu => jobj [("used", jstr tu.used), ("total", jstr tu.total),
           ("percent", jnum tu.percent)]
       | none => jnull),
     ("isActive", jbool a.isActive)])))
  let state := state.set "activeWork" (jarr ((tasks.take 5).map (fun t => jobj
    [("id", jstr t.uuid), ("title", jstr t.title), ("status", jstr "waiting"),
     ("project", jstr (jsOrStr t.area (jsOrStr t.project "Personal"))),
     ("progress", jnum 50)])))
  let state := state.set "stats" (jsOrGet (state.get "stats") (jobj []))
  let state := jsetIn state "stats" "cronJobsTotal" (jnum cronData.total)
  state

-- ---------------------------------------------------------------------------
-- getActiveAgents (source lines 509-616)
-- ---------------------------------------------------------------------------

/-- Index of the first occurrence of `sep` in `l`. -/
def findSub (l sep : List Char) : Option Nat :=
  match l with
  | [] => if sep.isEmpty then some 0 else none
  | _ :: t =>
      if leadsWith sep l then some 0
      else (findSub t sep).map (· + 1)

/-- `s.split(sep)[1]`: the text between the first and second occurrence
of the separator (`none` when the separator does not occur, modelling the
`undefined` element). -/
def splitIdx1 (s sep : String) : Option String :=
  match findSub s.data sep.data with
  | none => none
  | some i =>
      let rest := s.data.drop (i + sep.data.length)
      match findSub rest sep.data with
      | none => some ⟨rest⟩
      | some j => some ⟨rest.take j⟩

/-- `Math.round(a / b)` on integers with `b > 0`
(`⌊a/b + 1/2⌋ = ⌊(2a + b) / (2b)⌋`). -/
def jsRoundDiv (a b : Int) : Int := (2 * a + b).fdiv (2 * b)

/-- `getActiveAgents` (source lines 509-616).  The ambient effects are
parameters: `jparse` is `JSON.parse`; `execOut` is the stdout of the
sessions-list command (`none` models `execSync` throwing, e.g. on
timeout); `sessionsFile` is the contents of the Clawdbot sessions store
(`none` when missing); `nowMs`/`dateParse` model `Date.now()` and date
parsing.  Session fields and store labels are string/number valued, the
only shapes the stores hold. -/
def getActiveAgents (jparse : String → Option JVal) (execOut : Option String)
    (sessionsFile : Option String) (nowMs : Int) (dateParse : String → Int) : AgentData :=
  match execOut with
  | none => ⟨[], [], 1⟩
  | some output =>
    match jparse output with
    | none => ⟨[], [], 1⟩
    | some data =>
      let sessions : List JVal :=
        match data.get "sessions" with
        | some (JVal.jarr xs) => xs
        | _ => []
      let sessionLabels : List (String × String) :=
        match sessionsFile with
        | none => []
        | some content =>
          match jparse content with
          | some (JVal.jobj fs) =>
              fs.filterMap (fun kv =>
                match kv.2.get "label" with
                | some (JVal.jstr l) => if l ≠ "" then some (kv.1, l) else none
                | _ => none)
          | _ => []
      let agents := sessions.map (fun s =>
        let key := jsOrStr (jgetStr s "key") ""
        let sessionLabel := sessionLabels.lookup key
        let typeName : String × String :=
          if jsIncludes key ":cron:" then
            ("cron", jsOrStr sessionLabel (jsOrStr (splitIdx1 key ":cron:") "Cron job"))
          else if jsIncludes key ":subag" then
            ("subagent", jsOrStr sessionLabel "Sub-agent")
          else if key = "agent:main:main" then ("main", "Main session")
          else if jsIncludes key ":slack" then
            ("slack", jsOrStr sessionLabel "Slack session")
          else ("unknown", jsOrStr (jgetStr s "label") key)
        let updatedMs : Int :=
          match jgetStr s "updatedAt" with
          | some u => if u = "" then nowMs else dateParse u
          | none => nowMs
        let ageMinutes : Int := (nowMs - updatedMs).fdiv 60000
        let age :=
          if ageMinutes ≥ 1440 then toString (ageMinutes.fdiv 1440) ++ "d ago"
          else if ageMinutes ≥ 60 then toString (ageMinutes.fdiv 60) ++ "h ago"
          else if ageMinutes ≥ 1 then toString ageMinutes ++ "m"
          else "just now"
        let tokenUsage : Option TokenUsage :=
          match jgetNum s "totalTokens", jgetNum s "contextTokens" with
          | some t, some c =>
              if t ≠ 0 && c ≠ 0 then
                some ⟨toString (jsRoundDiv t 1000) ++ "k",
                      toString (jsRoundDiv c 1000) ++ "k",
                      jsRoundDiv (100 * t) c⟩
              else none
          | _, _ => none
        let isActive := ageMinutes < 30
        { key := key, kind := jsOrStr (jgetStr s "kind") "unknown",
          agentType := typeName.1, agentName := typeName.2, age := age,
          model := jgetStr s "model", tokenUsage := tokenUsage, isActive := isActive })
      let activeAgents := agents.filter (fun a =>
        a.isActive || a.agentType = "main" || a.agentType = "subagent")
      let runningCount := (agents.filter (·.isActive)).length
      ⟨agents, activeAgents, runningCount⟩

-- ---------------------------------------------------------------------------
-- The remaining collector record shapes used by `main`
-- ---------------------------------------------------------------------------

/-- An item of `getAwaitingResponses` (source lines 37-79).
`whereToCheck` starts as an explicit `null`; a `**Checked …**` line sets
`lastChecked` and `status` together, modelled as the `checked` pair. -/
structure AwaitingItem where
  date : String
  channel : String
  title : String
  whereToCheck : Option String
  checked : Option (String × String)

/-- `status` of an awaiting item (set only together with `lastChecked`). -/
def AwaitingItem.status (a : AwaitingItem) : Option String := a.checked.map (·.2)

/-- An item of `getHighPriorityTasks` (source lines 100-126). -/
structure PriorityTask where
  title : String
  project : Option String

/-- The combined needs-you list built in `main` (source lines 1403-1419):
awaiting responses first (P2), then high-priority tasks (P1). -/
def mkNeedsYouItems (awaiting : List AwaitingItem) (priorityTasks : List PriorityTask) :
    List NeedsItem :=
  awaiting.map (fun a =>
    { type := "awaiting", title := some a.title,
      context := some (jsOrStr a.status ("Check: " ++ a.channel)),
      description := none, priority := some "P2", source := some a.channel,
      project := none, link := some a.whereToCheck }) ++
  priorityTasks.map (fun t =>
    { type := "task", title := some t.title,
      context := some (match t.project with
        | some p => if p = "" then "Today task" else "Project: " ++ p
        | none => "Today task"),
      description := none, priority := some "P1", source := some "Things",
      project := none, link := none })

-- ---------------------------------------------------------------------------
-- JSON encodings of the typed records (what `JSON.stringify` sees when the
-- orchestrator stores them into the snapshot object)
-- ---------------------------------------------------------------------------

/-- Encoding of a needs-you item (`undefined` fields are omitted; the
explicit `null` in `link` survives). -/
def NeedsItem.toJ (it : NeedsItem) : JVal :=
  JVal.jobj
    ([("type", jstr it.type)] ++
     (match it.title with | some t => [("title", jstr t)] | none => []) ++
     (match it.context with | some c => [("context", jstr c)] | none => []) ++
     (match it.description with | some d => [("description", jstr d)] | none => []) ++
     (match it.priority with | some p => [("priority", jstr p)] | none => []) ++
     (match it.source with | some s => [("source", jstr s)] | none => []) ++
     (match it.project with | some p => [("project", jstr p)] | none => []) ++
     (match it.link with
      | none => []
      | some none => [("link", jnull)]
      | some (some l) => [("link", jstr l)]))

/-- Encoding of an awaiting-responses item. -/
def AwaitingItem.toJ (a : AwaitingItem) : JVal :=
  JVal.jobj
    ([("date", jstr a.date), ("channel", jstr a.channel), ("title", jstr a.title),
      ("type", jstr "awaiting"),
      ("whereToCheck", match a.whereToCheck with | some w => jstr w | none => jnull)] ++
     (match a.checked with
      | some lc => [("lastChecked", jstr lc.1), ("status", jstr lc.2)]
      | none => []))

/-- Encoding of one goal entry. -/
def GoalJ.toJ (g : GoalJ) : JVal :=
  JVal.jobj [("target", jstr g.target), ("progress", jnum g.progress)]

/-- Encoding of the `goals` object (absent code paths leave a bare `{}`). -/
def Goals.toJ (g : Goals) : JVal :=
  JVal.jobj
    ((match g.income with | some x => [("income", x.toJ)] | none => []) ++
     (match g.body with | some x => [("body", x.toJ)] | none => []) ++
     (match g.relationship with | some x => [("relationship", x.toJ)] | none => []) ++
     (match g.freedom with | some x => [("freedom", x.toJ)] | none => []) ++
     (match g.lifeQuality with | some x => [("lifeQuality", x.toJ)] | none => []))

/-- Encoding of the Life OS aggregate (object-literal key order of source
lines 336-344 / 347-355). -/
def LifeOSData.toJ (d : LifeOSData) : JVal :=
  JVal.jobj
    [("rocks", jarr (d.rocks.map (fun r => JVal.jobj
        [("number", jnum r.number), ("description", jstr r.description),
         ("owner", jstr r.owner), ("done", jbool r.done)]))),
     ("scorecard", jarr (d.scorecard.map (fun m => JVal.jobj
        [("metric", jstr m.metric), ("target", jstr m.target),
         ("actual", jstr m.actual)]))),
     ("goals", match d.goals with | some g => g.toJ | none => jnull),
     ("rockProgress", jnum d.rockProgress),
     ("rocksCompleted", jnum d.rocksCompleted),
     ("rocksTotal", jnum d.rocksTotal),
     ("daysUntilQ1End", jnum d.daysUntilQ1End)]

/-- Encoding of the task counts. -/
def TaskCounts.toJ (t : TaskCounts) : JVal :=
  JVal.jobj [("today", jnum t.today), ("inbox", jnum t.inbox), ("total", jnum t.total)]

/-- Encoding of the system status (`mainSessionContext` starts as an
explicit `null`). -/
def SystemStatus.toJ (s : SystemStatus) : JVal :=
  JVal.jobj
    [("clawdbotVersion", jstr s.clawdbotVersion),
     ("mainSessionContext",
       match s.mainSessionContext with
       | some c => JVal.jobj [("used", jnum c.used), ("total", jnum c.total),
           ("percent", jnum c.percent)]
       | none => jnull),
     ("memoryFileSize", jnum s.memoryFileSize),
     ("notesFileCount", jnum s.notesFileCount),
     ("dailyLogsCount", jnum s.dailyLogsCount)]

-- ---------------------------------------------------------------------------
-- Orchestrator (main, source lines 1376-1468, live mode) over an explicit
-- file-system state
-- ---------------------------------------------------------------------------

/-- `ACTIVITY_LOG_PATH` (source line 21). -/
def ACTIVITY_LOG_PATH : String := "/Users/Hal/clawd/dashboard/activity-log.json"
/-- The `state.json` path of `updateStateFile` (source line 720). -/
def STATE_PATH : String := "/Users/Hal/clawd/dashboard/state.json"
/-- The `index.html` path of `updateDashboardHTML` (source line 796). -/
def HTML_PATH : String := "/Users/Hal/clawd/dashboard/index.html"

/-- Association-list update (append when absent). -/
def updAssoc {α : Type} : List (String × α) → String → α → List (String × α)
  | [], k, v => [(k, v)]
  | (k', v') :: t, k, v =>
      if k' = k then (k', v) :: t else (k', v') :: updAssoc t k v

/-- File-system state: file contents by path, plus the set of paths whose
write fails (throwing from `fs.writeFileSync`). -/
structure FS where
  files : List (String × String)
  failWrites : List String

/-- `fs.readFileSync` (throws when the file is missing). -/
def FS.read (fs : FS) (p : String) : Except Unit String :=
  match fs.files.lookup p with
  | some c => .ok c
  | none => .error ()

/-- `fs.existsSync`. -/
def FS.exists (fs : FS) (p : String) : Bool := (fs.files.lookup p).isSome

/-- `fs.writeFileSync`. -/
def FS.write (fs : FS) (p c : String) : Except Unit FS :=
  if fs.failWrites.contains p then .error ()
  else .ok ⟨updAssoc fs.files p c, fs.failWrites⟩

/-- The ambient platform environment threaded through the run:
`JSON.stringify`/`JSON.parse` on the snapshot, the activity-log
serialization, the current ISO timestamp, the formatted local time
string of the header and the locale time formatter of the activity
feed. -/
structure Env where
  jser : JVal → String
  jparse : String → Option JVal
  actSer : List ActivityEntry → String
  actParse : String → Option (List ActivityEntry)
  nowIso : String
  timeStr : String
  fmtTime : String → String

/-- `loadActivityLog` (source lines 650-659): any failure yields `[]`. -/
def loadActivityLogFS (env : Env) (fs : FS) : List ActivityEntry :=
  if fs.exists ACTIVITY_LOG_PATH then
    match fs.read ACTIVITY_LOG_PATH with
    | .ok c =>
        match env.actParse c with
        | some l => l
        | none => []
    | .error _ => []
  else []

/-- `saveActivityLog` in live mode (source lines 661-667): the write is
not guarded, so its failure propagates. -/
def saveActivityLogFS (env : Env) (fs : FS) (activities : List ActivityEntry) :
    Except Unit FS :=
  fs.write ACTIVITY_LOG_PATH (env.actSer (saveActivityLogData activities))

/-- `logActivity` (source lines 669-678). -/
def logActivityFS (env : Env) (fs : FS) (action details source : String) :
    Except Unit FS :=
  let activities := loadActivityLogFS env fs
  saveActivityLogFS env fs
    ({ timestamp := env.nowIso, action := action, details := details,
       source := source } :: activities)

/-- `updateStateFile` (source lines 717-787): the load is guarded by
`try`/`catch` (falling back to `{}`), the write is not — its failure
propagates to the caller. -/
def updateStateFileFS (env : Env) (fs : FS) (cronData : CronData) (tasks : List Task)
    (agentData : AgentData) : Except Unit (FS × JVal) :=
  let prior :=
    match fs.read STATE_PATH with
    | .ok c =>
        match env.jparse c with
        | some v => v
        | none => JVal.jobj []
    | .error _ => JVal.jobj []
  let state := updateStateFileState prior cronData tasks agentData env.nowIso
  match fs.write STATE_PATH (env.jser state) with
  | .ok fs' => .ok (fs', state)
  | .error e => .error e

/-- `updateDashboardHTML` in live mode (source lines 793-1069): an
unguarded read of the document, the pure rule sequence, an unguarded
write back. -/
def updateDashboardHTMLFS (env : Env) (fs : FS) (state : JVal) (cronData : CronData)
    (tasks : List Task) (agentData : AgentData) (ouraData : OuraData)
    (lifeOSData : LifeOSData) (taskCounts : TaskCounts) (extraData : ExtraData) :
    Except Unit FS := do
  let html ← fs.read HTML_PATH
  let html := updateDashboardHTMLText state cronData tasks agentData ouraData lifeOSData
    taskCounts extraData env.timeStr env.fmtTime (loadActivityLogFS env fs) html
  fs.write HTML_PATH html

/-- Everything the data-collection phase of `main` produced (the adapters
are opaque external providers; their outputs are inputs here). -/
structure Collected where
  cronData : CronData
  tasks : List Task
  agentData : AgentData
  ouraData : OuraData
  lifeOSData : LifeOSData
  taskCounts : TaskCounts
  awaitingResponses : List AwaitingItem
  priorityTasks : List PriorityTask
  systemStatus : SystemStatus

/-- The persistence phase of `main` in live mode (source lines
1402-1454): combine the needs-you items, append one activity entry,
merge-and-save the snapshot, patch the document, then the guarded
extra-data snapshot rewrite (its `try`/`catch` swallows failure). -/
def mainRun (env : Env) (c : Collected) (fs : FS) : Except Unit FS := do
  let needsYouItems := mkNeedsYouItems c.awaitingResponses c.priorityTasks
  let fs ← logActivityFS env fs "Dashboard updated"
    (toString c.cronData.healthy ++ "/" ++ toString c.cronData.total ++ " crons OK, " ++
     toString c.tasks.length ++ " tasks, " ++ toString c.agentData.count ++ " agents")
    "system"
  let sr ← updateStateFileFS env fs c.cronData c.tasks c.agentData
  let fs := sr.1
  let state := sr.2
  let extraData : ExtraData := ⟨some needsYouItems, some c.systemStatus⟩
  let fs ← updateDashboardHTMLFS env fs state c.cronData c.tasks c.agentData c.ouraData
    c.lifeOSData c.taskCounts extraData
  let fs :=
    match
      (do
        let content ← fs.read STATE_PATH
        match env.jparse content with
        | some existingState =>
            let existingState := existingState.set "lifeOS" c.lifeOSData.toJ
            let existingState := existingState.set "taskCounts" c.taskCounts.toJ
            let existingState := existingState.set "systemStatus" c.systemStatus.toJ
            let existingState := existingState.set "needsYouItems"
              (jarr (needsYouItems.map NeedsItem.toJ))
            let existingState := existingState.set "awaitingResponses"
              (jarr (c.awaitingResponses.map AwaitingItem.toJ))
            fs.write STATE_PATH (env.jser existingState)
        | none => .error () : Except Unit FS) with
    | .ok fs' => fs'
    | .error _ => fs
  pure fs

-- ---------------------------------------------------------------------------
-- The degraded (every-source-failing) data snapshot: the catch-branch
-- defaults of each collector, transcribed from the source
-- ---------------------------------------------------------------------------

/-- `getCronDetailedStatus` catch default (source line 243). -/
def cronDataFail : CronData := ⟨[], 0, 0, [], []⟩

/-- `getActiveAgents` catch default (source lines 523, 614). -/
def agentDataFail : AgentData := ⟨[], [], 1⟩

/-- `getOuraBodyStats` catch default (source lines 426-431). -/
def ouraDataFail : OuraData :=
  ⟨some ⟨"unknown", none, none, none⟩, some ⟨"unknown", none, none⟩,
   some ⟨0, none, "", none⟩⟩

/-- `getLifeOSData` catch default (source lines 347-355); the bare
`goals: {}` is the all-absent record. -/
def lifeOSDataFail : LifeOSData :=
  ⟨[], [], some ⟨none, none, none, none, none⟩, 0, 0, 0, 60⟩

/-- `getThingsTaskCounts` catch default (source line 372). -/
def taskCountsFail : TaskCounts := ⟨0, 0, 0⟩

/-- `getSystemStatus` when every probe fails (source lines 130-136). -/
def systemStatusFail : SystemStatus := ⟨"unknown", none, 0, 0, 0⟩

/-- The degraded collection: every adapter returned its documented
default. -/
def collectedFail : Collected :=
  ⟨cronDataFail, [], agentDataFail, ouraDataFail, lifeOSDataFail, taskCountsFail,
   [], [], systemStatusFail⟩

-- ---------------------------------------------------------------------------
-- C1: idempotence of the document patcher
-- ---------------------------------------------------------------------------

/-- A file system holding only the dashboard document. -/
def c3FS0 : FS := ⟨[(HTML_PATH, "x")], []⟩

/-- The same file system, with the snapshot write failing. -/
def c3FSFail : FS := ⟨[(HTML_PATH, "x")], [STATE_PATH]⟩

/-- A trivial platform environment for the aborting run (its serializers
are never observed: the run fails before their output matters). -/
def c3EnvErr : Env :=
  ⟨fun _ => "", fun _ => none, fun _ => "", fun _ => none, "T", "T", fun s => s⟩

/-- The snapshot merged from an empty prior by the degraded run. -/
def c3Merged (iso : String) : JVal :=
  updateStateFileState (jobj []) cronDataFail [] agentDataFail iso

/-- The one activity entry the degraded run appends. -/
def c3LogEntry (iso : String) : ActivityEntry :=
  ⟨iso, "Dashboard updated", "0/0 crons OK, 0 tasks, 1 agents", "system"⟩

/-- The snapshot after the guarded extra-data rewrite of `main`. -/
def c3Final (iso : String) : JVal :=
  (((((c3Merged iso).set "lifeOS" lifeOSDataFail.toJ).set "taskCounts"
    taskCountsFail.toJ).set "systemStatus" systemStatusFail.toJ).set "needsYouItems"
    (jarr ((mkNeedsYouItems [] []).map NeedsItem.toJ))).set "awaitingResponses"
    (jarr ([].map AwaitingItem.toJ))

/-- The document the degraded run writes. -/
def c3Doc1 (env : Env) : String :=
  updateDashboardHTMLText (c3Merged env.nowIso) cronDataFail [] agentDataFail
    ouraDataFail lifeOSDataFail taskCountsFail
    ⟨some (mkNeedsYouItems [] []), some systemStatusFail⟩
    env.timeStr env.fmtTime [c3LogEntry env.nowIso] "x"

/-- An environment whose serialize/parse pairs round-trip on exactly the
values the degraded run writes (`JSON.stringify`/`JSON.parse` are
platform builtins; only this round-trip property of theirs is relevant
to the run). -/
def c3EnvOk : Env :=
  { jser := fun _ => "S",
    jparse := fun s => if s = "S" then some (c3Merged "T") else none,
    actSer := fun _ => "L",
    actParse := fun s => if s = "L" then some [c3LogEntry "T"] else none,
    nowIso := "T", timeStr := "Feb 1, 2026, 9:00 AM", fmtTime := fun _ => "9:00 AM" }

/-- Two-level read. -/
def jpath2 (o : JVal) (k1 k2 : String) : Option JVal :=
  match o.get k1 with
  | some h => h.get k2
  | none => none

/-- Three-level read. -/
def jpath3 (o : JVal) (k1 k2 k3 : String) : Option JVal :=
  match o.get k1 with
  | some h => jpath2 h k2 k3
  | none => none

/-- Two-level string read. -/
def jpath2Str (o : JVal) (k1 k2 : String) : Option String :=
  match jpath2 o k1 k2 with
  | some (JVal.jstr s) => some s
  | _ => none

/-- Being an object. -/
def JVal.isObj : JVal → Prop
  | JVal.jobj _ => True
  | _ => False

-- ---------------------------------------------------------------------------
-- C4: the snapshot merge policy
-- ---------------------------------------------------------------------------

/-- A prior snapshot whose `health` object carries an extra subkey. -/
def c4Prior1 : JVal :=
  jobj [("health", jobj [("custom", jstr "keepme"), ("crons", jstr "old")]),
        ("extraKey", jstr "z")]

/-- The same snapshot without the extra subkey. -/
def c4Prior2 : JVal :=
  jobj [("health", jobj [("crons", jstr "old")]), ("extraKey", jstr "z")]

/-- A prior snapshot whose `stats` object carries an extra subkey. -/
def c4Prior3 : JVal :=
  jobj [("stats", jobj [("note", jstr "n"), ("cronJobsTotal", jnum 7)])]

-- ---------------------------------------------------------------------------
-- C5: zero-guarded goal progress
-- ---------------------------------------------------------------------------

/-- The progress value as the specification words it: `0` for an empty
bucket, otherwise the done/total ratio as a percentage rounded to the
nearest integer. -/
def progressPerSpec (sub : List Rock) : JNum :=
  .num (if sub.length = 0 then 0
    else ((⌊((sub.filter (·.done)).length : ℚ) / (sub.length : ℚ) * 100 + 1 / 2⌋ : ℤ) : ℚ))

/-- A fixed-width line whose status column reads `BOGUS`. -/
def c9Line : String :=
  "a" ++ ⟨List.replicate 35 ' '⟩ ++ " " ++ "b" ++ ⟨List.replicate 23 ' '⟩ ++
  ⟨List.replicate 33 ' '⟩ ++ ⟨List.replicate 11 ' '⟩ ++ ⟨List.replicate 11 ' '⟩ ++ "BOGUS"

-- ---------------------------------------------------------------------------
-- C2: HTML escaping
-- ---------------------------------------------------------------------------

/-- The character-to-entity map the specification describes: `&`, `<`,
`>` and `"` become their entities, everything else is untouched. -/
def escChar (c : Char) : List Char :=
  if c = '&' then "&amp;".data
  else if c = '<' then "&lt;".data
  else if c = '>' then "&gt;".data
  else if c = '"' then "&quot;".data
  else [c]

/-- A needs-you item whose title embeds the probe `<script>&"`. -/
def c2Item : NeedsItem :=
  { type := "task", title := some "Do <script>&\" now", context := some "soon",
    description := none, priority := some "P1", source := some "Things",
    project := none, link := none }

/-- A fixed-width row whose status column reads `error`. -/
def c8LineError : String :=
  "a" ++ ⟨List.replicate 35 ' '⟩ ++ " " ++ "b" ++ ⟨List.replicate 23 ' '⟩ ++
  ⟨List.replicate 33 ' '⟩ ++ ⟨List.replicate 11 ' '⟩ ++ ⟨List.replicate 11 ' '⟩ ++ "error"

/-- A fixed-width row whose status column reads `running`. -/
def c8LineRunning : String :=
  "a" ++ ⟨List.replicate 35 ' '⟩ ++ " " ++ "b" ++ ⟨List.replicate 23 ' '⟩ ++
  ⟨List.replicate 33 ' '⟩ ++ ⟨List.replicate 11 ' '⟩ ++ ⟨List.replicate 11 ' '⟩ ++ "running"

/-- A fixed-width row with status `ok` that never ran (`-` last run). -/
def c8LineNever : String :=
  "a" ++ ⟨List.replicate 35 ' '⟩ ++ " " ++ "b" ++ ⟨List.replicate 23 ' '⟩ ++
  ⟨List.replicate 33 ' '⟩ ++ ⟨List.replicate 11 ' '⟩ ++ "-" ++ ⟨List.replicate 10 ' '⟩ ++ "ok"

/-- A fixed-width healthy row (`ok`, with a last run). -/
def c8LineGreen : String :=
  "a" ++ ⟨List.replicate 35 ' '⟩ ++ " " ++ "b" ++ ⟨List.replicate 23 ' '⟩ ++
  ⟨List.replicate 33 ' '⟩ ++ ⟨List.replicate 11 ' '⟩ ++ "1h ago" ++ ⟨List.replicate 5 ' '⟩ ++ "ok"

/-- A fixed-width row whose status column reads `OK`. -/
def c9LineOk : String :=
  "a" ++ ⟨List.replicate 35 ' '⟩ ++ " " ++ "b" ++ ⟨List.replicate 23 ' '⟩ ++
  ⟨List.replicate 33 ' '⟩ ++ ⟨List.replicate 11 ' '⟩ ++ ⟨List.replicate 11 ' '⟩ ++ "OK"

-- ---------------------------------------------------------------------------
-- Theorems
-- ---------------------------------------------------------------------------

/-- C3 (counterexample): a failure to write one output file does abort the
run.  With the snapshot write failing, the live run raises out of
`updateStateFile` — the exception propagates to the orchestrator and the
document write never happens, contrary to the claim that persistence
failures are logged and do not block the other writes. -/
theorem c3_counterexample : mainRun c3EnvErr collectedFail c3FSFail = .error () := by rfl

/-- A write on a successful `logActivity` leaves the failure set alone. -/
theorem logActivityFS_failWrites {env : Env} {fs fs' : FS} {a d s : String}
    (h : logActivityFS env fs a d s = .ok fs') : fs'.failWrites = fs.failWrites := by
  unfold logActivityFS saveActivityLogFS FS.write at h
  split at h
  · cases h
  · cases h; rfl

/-- When the snapshot path is in the failure set, `updateStateFile`
raises. -/
theorem updateStateFileFS_fails {env : Env} {fs : FS} {cd : CronData} {ts : List Task}
    {ad : AgentData} (hf : fs.failWrites.contains STATE_PATH = true) :
    updateStateFileFS env fs cd ts ad = .error () := by
  unfold updateStateFileFS FS.write
  simp [List.mem_of_elem_eq_true hf]

/-- C3 (amended): persistence failures propagate — for every environment,
collection and file system whose snapshot write fails, the whole run
aborts with the exception, so the document write is blocked; on the
other hand a maximally degraded run (every collector at its catch
default) with working persistence completes and writes all three files:
the appended one-entry activity log, the patched document and the
snapshot (the merged state, rewritten once more by the guarded
extra-data step). -/
theorem c3_amended :
    (∀ (env : Env) (c : Collected) (fs : FS), fs.failWrites.contains STATE_PATH = true →
      mainRun env c fs = .error ()) ∧
    mainRun c3EnvOk collectedFail c3FS0 = .ok
      ⟨[(HTML_PATH, c3Doc1 c3EnvOk), (ACTIVITY_LOG_PATH, "L"), (STATE_PATH, "S")], []⟩ := by
  constructor
  · intro env c fs hf
    unfold mainRun
    cases hlog : logActivityFS env fs "Dashboard updated"
        (toString c.cronData.healthy ++ "/" ++ toString c.cronData.total ++ " crons OK, " ++
         toString c.tasks.length ++ " tasks, " ++ toString c.agentData.count ++ " agents")
        "system" with
    | error e => cases e; simp [hlog, bind, Except.bind]
    | ok fs1 =>
        have hw1 : fs1.failWrites.contains STATE_PATH = true := by
          rw [logActivityFS_failWrites hlog]; exact hf
        simp [hlog, bind, Except.bind, updateStateFileFS_fails hw1]
  · rfl

-- ---------------------------------------------------------------------------
-- Association-list and object lemmas for the snapshot merge
-- ---------------------------------------------------------------------------

/-- Looking up the key just stored. -/
theorem lookup_setField_self (fs : List (String × JVal)) (k : String) (v : JVal) :
    (JVal.set.setField fs k v).lookup k = some v := by
  induction fs with
  | nil => simp [JVal.set.setField, List.lookup]
  | cons hd t ih =>
      obtain ⟨k1, v1⟩ := hd
      by_cases e : k1 = k
      · subst e; simp [JVal.set.setField, List.lookup]
      · have e' : ¬k = k1 := fun hh => e hh.symm
        simp [JVal.set.setField, e, List.lookup, ih, beq_false_of_ne e']

/-- Storing one key leaves every other key's lookup unchanged. -/
theorem lookup_setField_ne (fs : List (String × JVal)) (k : String) (v : JVal)
    (k' : String) (h : k' ≠ k) :
    (JVal.set.setField fs k v).lookup k' = fs.lookup k' := by
  induction fs with
  | nil => simp [JVal.set.setField, List.lookup, beq_false_of_ne h]
  | cons hd t ih =>
      obtain ⟨k1, v1⟩ := hd
      by_cases e : k1 = k
      · subst e
        simp [JVal.set.setField, List.lookup, beq_false_of_ne h]
      · by_cases e' : k' = k1
        · subst e'
          simp [JVal.set.setField, e, List.lookup, ih]
        · simp [JVal.set.setField, e, List.lookup, ih, beq_false_of_ne e']

/-- Reading the key just assigned on an object. -/
theorem get_set_self (fs : List (String × JVal)) (k : String) (v : JVal) :
    ((JVal.jobj fs).set k v).get k = some v := by
  simp [JVal.set, JVal.get, lookup_setField_self]

/-- Assignment leaves the other keys of any value unchanged. -/
theorem get_set_ne (o : JVal) (k : String) (v : JVal) (k' : String) (h : k' ≠ k) :
    (o.set k v).get k' = o.get k' := by
  cases o <;> simp [JVal.set, JVal.get, lookup_setField_ne _ _ _ _ h]

/-- A nested assignment under `k1` leaves the other top-level keys
unchanged. -/
theorem jsetIn_get_ne (o : JVal) (k1 k2 : String) (v : JVal) (k' : String)
    (h : k' ≠ k1) : (jsetIn o k1 k2 v).get k' = o.get k' := by
  unfold jsetIn
  split
  · exact get_set_ne _ _ _ _ h
  · rfl

/-- A nested assignment under `k1`, when `k1` holds an object, updates
just that object. -/
theorem jsetIn_get_self (o : JVal) (k1 k2 : String) (v : JVal)
    (fs : List (String × JVal)) (h : o.get k1 = some (JVal.jobj fs)) :
    (jsetIn o k1 k2 v).get k1 = some (JVal.jobj (JVal.set.setField fs k2 v)) := by
  have ho : ∃ ofs, o = JVal.jobj ofs := by
    cases o <;> simp [JVal.get] at h <;> exact ⟨_, rfl⟩
  obtain ⟨ofs, rfl⟩ := ho
  unfold jsetIn
  rw [h]
  exact get_set_self _ _ _

/-- `jsetIn` keeps objects objects. -/
theorem jsetIn_jobj (fs : List (String × JVal)) (k1 k2 : String) (v : JVal) :
    ∃ fs', jsetIn (JVal.jobj fs) k1 k2 v = JVal.jobj fs' := by
  unfold jsetIn
  split
  · exact ⟨_, rfl⟩
  · exact ⟨fs, rfl⟩

/-- Object literals are objects. -/
theorem isObj_jobj (fs : List (String × JVal)) : (JVal.jobj fs).isObj := trivial

/-- Assignment keeps objects objects. -/
theorem isObj_set (o : JVal) (k : String) (v : JVal) (h : o.isObj) :
    (o.set k v).isObj := by
  cases o <;> simp_all [JVal.isObj, JVal.set]

/-- Nested assignment keeps objects objects. -/
theorem isObj_jsetIn (o : JVal) (k1 k2 : String) (v : JVal) (h : o.isObj) :
    (jsetIn o k1 k2 v).isObj := by
  unfold jsetIn
  split
  · exact isObj_set _ _ _ h
  · exact h

/-- Reading back the key just assigned, on any object. -/
theorem get_set_self' (o : JVal) (k : String) (v : JVal) (h : o.isObj) :
    (o.set k v).get k = some v := by
  cases o <;> simp_all [JVal.isObj]
  exact get_set_self _ _ _

/-- C4 (counterexample): the known top-level key `health` is not
overwritten wholesale.  Prior contents leak into the merged snapshot: a
stray `health.custom` subkey of the prior survives the merge, so
`health` after the merge depends on the prior snapshot's interior —
with an identical prior lacking the subkey, the merged `health` differs. -/
theorem c4_counterexample :
    jpath2Str (updateStateFileState c4Prior1 cronDataFail [] agentDataFail "T")
      "health" "custom" = some "keepme" ∧
    jpath2Str (updateStateFileState c4Prior2 cronDataFail [] agentDataFail "T")
      "health" "custom" = none := ⟨rfl, rfl⟩

/-- C4 (amended): `updateStateFile` overwrites `lastUpdated`, `crons`,
`agents` and `activeWork` wholesale (their merged values are independent
of the prior snapshot), and preserves unrecognized top-level keys
untouched; but `health` and `stats` are updated field-wise — their
subkeys other than the freshly assigned ones (`crons`, `agents`,
`active`, `blocked`, respectively `cronJobsTotal`) are carried over from
the prior snapshot rather than being dropped by a wholesale overwrite. -/
theorem c4_amended (fs : List (String × JVal)) (cronData : CronData) (tasks : List Task)
    (agentData : AgentData) (iso : String) :
    (∀ k, k ∉ (["lastUpdated", "health", "crons", "agents", "activeWork", "stats"] :
        List String) →
      (updateStateFileState (jobj fs) cronData tasks agentData iso).get k =
        (jobj fs).get k) ∧
    (updateStateFileState (jobj fs) cronData tasks agentData iso).get "lastUpdated" =
      some (jstr iso) ∧
    (∀ fs', (updateStateFileState (jobj fs') cronData tasks agentData iso).get "crons" =
      (updateStateFileState (jobj fs) cronData tasks agentData iso).get "crons") ∧
    (∀ fs', (updateStateFileState (jobj fs') cronData tasks agentData iso).get "agents" =
      (updateStateFileState (jobj fs) cronData tasks agentData iso).get "agents") ∧
    (∀ fs', (updateStateFileState (jobj fs') cronData tasks agentData iso).get "activeWork" =
      (updateStateFileState (jobj fs) cronData tasks agentData iso).get "activeWork") ∧
    jpath2 (updateStateFileState c4Prior1 cronData tasks agentData iso) "health" "custom" =
      some (jstr "keepme") ∧
    jpath2 (updateStateFileState c4Prior3 cronData tasks agentData iso) "stats" "note" =
      some (jstr "n") := by
  have hobj : ∀ (g : List (String × JVal)) (k1 : String) (v1 : JVal),
      (((JVal.jobj g).set k1 v1).isObj) := by
    intro g k1 v1; exact isObj_set _ _ _ (isObj_jobj g)
  refine ⟨?_, ?_, ?_, ?_, ?_, ?_, ?_⟩
  · -- frame: unrecognized top-level keys untouched
    intro k hk
    have h1 : k ≠ "lastUpdated" := fun e => hk (by simp [e])
    have h2 : k ≠ "health" := fun e => hk (by simp [e])
    have h3 : k ≠ "crons" := fun e => hk (by simp [e])
    have h4 : k ≠ "agents" := fun e => hk (by simp [e])
    have h5 : k ≠ "activeWork" := fun e => hk (by simp [e])
    have h6 : k ≠ "stats" := fun e => hk (by simp [e])
    simp only [updateStateFileState]
    rw [jsetIn_get_ne _ _ _ _ _ h6, get_set_ne _ _ _ _ h6, get_set_ne _ _ _ _ h5,
      get_set_ne _ _ _ _ h4, get_set_ne _ _ _ _ h3, jsetIn_get_ne _ _ _ _ _ h2,
      jsetIn_get_ne _ _ _ _ _ h2, jsetIn_get_ne _ _ _ _ _ h2, jsetIn_get_ne _ _ _ _ _ h2,
      get_set_ne _ _ _ _ h2, get_set_ne _ _ _ _ h1]
  · -- lastUpdated is the fresh timestamp
    simp only [updateStateFileState]
    rw [jsetIn_get_ne _ _ _ _ _ (by decide), get_set_ne _ _ _ _ (by decide),
      get_set_ne _ _ _ _ (by decide), get_set_ne _ _ _ _ (by decide),
      get_set_ne _ _ _ _ (by decide), jsetIn_get_ne _ _ _ _ _ (by decide),
      jsetIn_get_ne _ _ _ _ _ (by decide), jsetIn_get_ne _ _ _ _ _ (by decide),
      jsetIn_get_ne _ _ _ _ _ (by decide), get_set_ne _ _ _ _ (by decide)]
    exact get_set_self _ _ _
  · -- crons: wholesale (prior-independent)
    intro fs'
    have norm : ∀ g : List (String × JVal),
        (updateStateFileState (jobj g) cronData tasks agentData iso).get "crons" =
          some (jarr (cronData.crons.map (fun c => jobj
            [("name", jstr c.name),
             ("schedule", jstr (jsOrS c.next c.schedule)),
             ("health", jstr (if c.status = "error" then "error" else "ok")),
             ("lastRun", jstr c.last),
             ("error", if c.status = "error" then jstr "See cron logs" else jnull)]))) := by
      intro g
      simp only [updateStateFileState]
      rw [jsetIn_get_ne _ _ _ _ _ (by decide), get_set_ne _ _ _ _ (by decide),
        get_set_ne _ _ _ _ (by decide), get_set_ne _ _ _ _ (by decide)]
      exact get_set_self' _ _ _ (isObj_jsetIn _ _ _ _ (isObj_jsetIn _ _ _ _
        (isObj_jsetIn _ _ _ _ (isObj_jsetIn _ _ _ _ (hobj _ _ _)))))
    rw [norm fs', norm fs]
  · -- agents: wholesale
    intro fs'
    have norm : ∀ g : List (String × JVal),
        (updateStateFileState (jobj g) cronData tasks agentData iso).get "agents" =
          some (jarr (agentData.active.map (fun a => jobj
            [("key", jstr a.key), ("name", jstr a.agentName), ("type", jstr a.agentType),
             ("age", jstr a.age),
             ("tokenUsage",
               match a.tokenUsage with
               | some tu => jobj [("used", jstr tu.used), ("total", jstr tu.total),
                   ("percent", jnum tu.percent)]
               | none => jnull),
             ("isActive", jbool a.isActive)]))) := by
      intro g
      simp only [updateStateFileState]
      rw [jsetIn_get_ne _ _ _ _ _ (by decide), get_set_ne _ _ _ _ (by decide),
        get_set_ne _ _ _ _ (by decide)]
      exact get_set_self' _ _ _ (isObj_set _ _ _ (isObj_jsetIn _ _ _ _ (isObj_jsetIn _ _ _ _
        (isObj_jsetIn _ _ _ _ (isObj_jsetIn _ _ _ _ (hobj _ _ _))))))
    rw [norm fs', norm fs]
  · -- activeWork: wholesale
    intro fs'
    have norm : ∀ g : List (String × JVal),
        (updateStateFileState (jobj g) cronData tasks agentData iso).get "activeWork" =
          some (jarr ((tasks.take 5).map (fun t => jobj
            [("id", jstr t.uuid), ("title", jstr t.title), ("status", jstr "waiting"),
             ("project", jstr (jsOrStr t.area (jsOrStr t.project "Personal"))),
             ("progress", jnum 50)]))) := by
      intro g
      simp only [updateStateFileState]
      rw [jsetIn_get_ne _ _ _ _ _ (by decide), get_set_ne _ _ _ _ (by decide)]
      exact get_set_self' _ _ _ (isObj_set _ _ _ (isObj_set _ _ _ (isObj_jsetIn _ _ _ _
        (isObj_jsetIn _ _ _ _ (isObj_jsetIn _ _ _ _ (isObj_jsetIn _ _ _ _
          (hobj _ _ _)))))))
    rw [norm fs', norm fs]
  · -- health: field-wise merge preserves a foreign subkey, whatever the
    -- freshly collected data
    rfl
  · -- stats: field-wise merge preserves a foreign subkey
    rfl

-- ---------------------------------------------------------------------------
-- C6: the bounded activity log
-- ---------------------------------------------------------------------------

/-- Truncating the right summand before an append-truncate is harmless. -/
theorem take_append_take {α : Type} (x y : List α) (k : Nat) :
    (x ++ y.take k).take k = (x ++ y).take k := by
  rw [List.take_append_eq_append_take, List.take_append_eq_append_take, List.take_take,
    Nat.min_eq_left (Nat.sub_le k x.length)]

/-- A nonempty run of appends equals the reversed run prepended to the
initial log, truncated. -/
theorem appendAll_eq (es : List ActivityEntry) (log : List ActivityEntry) (h : es ≠ []) :
    appendAll log es = (es.reverse ++ log).take MAX_ACTIVITY_ITEMS := by
  induction es generalizing log with
  | nil => exact absurd rfl h
  | cons e es ih =>
      cases es with
      | nil => rfl
      | cons e' es' =>
          show appendAll ((e :: log).take MAX_ACTIVITY_ITEMS) (e' :: es') = _
          rw [ih _ (by simp), take_append_take]
          simp [List.append_assoc]

/-- C6: every append prepends at the head and keeps the persisted log at
most `MAX_ACTIVITY_ITEMS` (50) long; once at least 50 entries have been
appended, exactly the 50 most recent survive, newest first, and the
older ones are dropped. -/
theorem c6_bounded_log :
    (∀ (log : List ActivityEntry) (e : ActivityEntry),
      (logActivityData log e).head? = some e ∧
      (logActivityData log e).length ≤ MAX_ACTIVITY_ITEMS) ∧
    (∀ (log es : List ActivityEntry), MAX_ACTIVITY_ITEMS ≤ es.length →
      appendAll log es = es.reverse.take MAX_ACTIVITY_ITEMS ∧
      (appendAll log es).length = MAX_ACTIVITY_ITEMS) := by
  constructor
  · intro log e
    constructor
    · rfl
    · simpa [logActivityData, saveActivityLogData] using List.length_take_le _ _
  · intro log es h
    have hne : es ≠ [] := by
      intro e; subst e; simp [MAX_ACTIVITY_ITEMS] at h
    have h1 : appendAll log es = es.reverse.take MAX_ACTIVITY_ITEMS := by
      rw [appendAll_eq es log hne,
        List.take_append_of_le_length (by simpa using h)]
    refine ⟨h1, ?_⟩
    rw [h1]
    have h' : 50 ≤ es.length := h
    simp only [List.length_take, List.length_reverse]
    show min 50 es.length = 50
    omega

/-- `x || 0` does nothing on an actual number. -/
theorem jorZero_num (q : ℚ) : jorZero (.num q) = .num q := by
  by_cases h : q = 0 <;> simp [jorZero, h]

/-- The per-category computation always produces the spec's value — in
particular a number, never `NaN`. -/
theorem goalProgressJS_eq (sub : List Rock) : goalProgressJS sub = progressPerSpec sub := by
  by_cases h : sub.length = 0
  · have : sub = [] := List.length_eq_zero.mp h
    subst this
    simp [goalProgressJS, progressPerSpec, jdiv, jmul, jround, jorZero]
  · have hq : ((sub.length : ℚ)) ≠ 0 := by
      exact_mod_cast h
    simp [goalProgressJS, progressPerSpec, jdiv, jmul, jround, hq, h, jorZero_num]

/-- The overall rock progress likewise. -/
theorem rockProgressJS_eq (rocks : List Rock) :
    rockProgressJS rocks = progressPerSpec rocks := by
  by_cases h : rocks.length = 0
  · have : rocks = [] := List.length_eq_zero.mp h
    subst this
    simp [rockProgressJS, progressPerSpec]
  · have hp : rocks.length > 0 := Nat.pos_of_ne_zero h
    have hq : ((rocks.length : ℚ)) ≠ 0 := by exact_mod_cast h
    simp [rockProgressJS, progressPerSpec, jdiv, jmul, jround, hq, h, hp]

/-- C5: for every parsed rocks list, each goal category's progress and
the overall rocks progress are genuine numbers (never `NaN` or a
division error): `0` when the bucket is empty, otherwise the done/total
ratio rounded to the nearest integer percent. -/
theorem c5_zero_guard (rocks : List Rock) :
    goalProgressJS (incomeRocks rocks) = progressPerSpec (incomeRocks rocks) ∧
    goalProgressJS (bodyRocks rocks) = progressPerSpec (bodyRocks rocks) ∧
    goalProgressJS (relationshipRocks rocks) = progressPerSpec (relationshipRocks rocks) ∧
    goalProgressJS (freedomRocks rocks) = progressPerSpec (freedomRocks rocks) ∧
    rockProgressJS rocks = progressPerSpec rocks ∧
    progressPerSpec ([] : List Rock) = .num 0 :=
  ⟨goalProgressJS_eq _, goalProgressJS_eq _, goalProgressJS_eq _, goalProgressJS_eq _,
   rockProgressJS_eq _, rfl⟩

-- ---------------------------------------------------------------------------
-- C8 and C9: the cron row parser
-- ---------------------------------------------------------------------------

/-- C8: the derived health color of every accepted cron row follows
exactly the four-branch classification, in precedence order: `error` is
red; otherwise `running` is blue; otherwise a `-`/`never` last-run is
orange; otherwise green. -/
theorem c8_cron_colors (line : String) (c : Cron) (h : parseCronLine line = some c) :
    (c.status = "error" → c.color = "red") ∧
    (c.status ≠ "error" → c.status = "running" → c.color = "blue") ∧
    (c.status ≠ "error" → c.status ≠ "running" → (c.last = "-" ∨ c.last = "never") →
      c.color = "orange") ∧
    (c.status ≠ "error" → c.status ≠ "running" → c.last ≠ "-" → c.last ≠ "never" →
      c.color = "green") := by
  unfold parseCronLine at h
  dsimp only at h
  split at h
  · cases h
  · injection h with h'
    subst h'
    set s := jsToLower (jsTrim (jsSubstring line 116 126)) with hs
    by_cases he : s = ""
    · by_cases h3 : jsTrim (jsSubstring line 105 116) = "-"
      · simp [jsOrS, he, h3]
      · by_cases h4 : jsTrim (jsSubstring line 105 116) = "never"
        · simp [jsOrS, he, h3, h4]
        · simp [jsOrS, he, h3, h4]
    · by_cases h1 : s = "error"
      · simp [jsOrS, he, h1]
      · by_cases h2 : s = "running"
        · simp [jsOrS, he, h1, h2]
        · by_cases h3 : jsTrim (jsSubstring line 105 116) = "-"
          · simp [jsOrS, he, h1, h2, h3]
          · by_cases h4 : jsTrim (jsSubstring line 105 116) = "never"
            · simp [jsOrS, he, h1, h2, h3, h4]
            · simp [jsOrS, he, h1, h2, h3, h4]

/-- C9 (counterexample): an accepted row whose status column holds an
out-of-vocabulary word keeps it verbatim (lower-cased) — the parser does
not map unknown statuses to `"unknown"`, so the status field is not
confined to the documented set. -/
theorem c9_counterexample :
    (parseCronLine c9Line).map Cron.status = some "bogus" ∧
    "bogus" ∉ (["ok", "idle", "error", "running", "unknown"] : List String) := by
  constructor
  · rfl
  · decide

/-- C9 (amended): the status of every accepted row is the lower-cased,
trimmed status column, with only the empty column defaulted to
`"unknown"`; other values pass through unchanged (and the field is never
empty). -/
theorem c9_amended (line : String) (c : Cron) (h : parseCronLine line = some c) :
    c.status = (if cronStatusCol line = "" then "unknown" else cronStatusCol line) ∧
    c.status ≠ "" := by
  unfold parseCronLine at h
  dsimp only at h
  split at h
  · cases h
  · injection h with h'
    subst h'
    show jsOrS (cronStatusCol line) "unknown" = _ ∧ jsOrS (cronStatusCol line) "unknown" ≠ ""
    by_cases he : cronStatusCol line = "" <;> simp [jsOrS, he]

-- ---------------------------------------------------------------------------
-- C10: the one-agent fallback of getActiveAgents
-- ---------------------------------------------------------------------------

/-- C10: when the sessions-list command throws or its output is not
parseable JSON, `getActiveAgents` reports one active agent (count 1, not
0) with empty agent lists; that count lands in the snapshot as
`health.agents.active = 1` whatever the rest of the collected data, and
the rendered Active Agents card carries the badge `1`. -/
theorem c10_agent_fallback (jparse : String → Option JVal) (sessionsFile : Option String)
    (nowMs : Int) (dateParse : String → Int) :
    getActiveAgents jparse none sessionsFile nowMs dateParse = ⟨[], [], 1⟩ ∧
    (∀ out, jparse out = none →
      getActiveAgents jparse (some out) sessionsFile nowMs dateParse = ⟨[], [], 1⟩) ∧
    (∀ (cronData : CronData) (tasks : List Task) (iso : String),
      jpath3 (updateStateFileState (jobj []) cronData tasks ⟨[], [], 1⟩ iso)
        "health" "agents" "active" = some (jnum 1)) ∧
    jsIncludes (buildAgentSection ⟨[], [], 1⟩) "<span class=\"badge green\">1</span>" = true := by
  refine ⟨rfl, ?_, ?_, ?_⟩
  · intro out h
    unfold getActiveAgents
    dsimp only
    rw [h]
  · intro cronData tasks iso
    rfl
  · decide

/-- The chained global replaces of `escapeHtml` equal the one-pass
character map (in particular, escaping the ampersand first never
double-escapes the later entities). -/
theorem escapeHtmlL_eq_flat (s : List Char) : escapeHtmlL s = s.flatMap escChar := by
  induction s with
  | nil => rfl
  | cons c t ih =>
      show escapeHtmlL (c :: t) = escChar c ++ t.flatMap escChar
      rw [← ih]
      by_cases h1 : c = '&'
      · subst h1; rfl
      · by_cases h2 : c = '<'
        · subst h2; rfl
        · by_cases h3 : c = '>'
          · subst h3; rfl
          · by_cases h4 : c = '"'
            · subst h4; rfl
            · simp [escapeHtmlL, repChar, escChar, h1, h2, h3, h4]

/-- No entity expansion contains a raw `<`, `>` or `"`. -/
theorem escChar_clean (c : Char) :
    (escChar c).all (fun x => !(x = '<' || x = '>' || x = '"')) = true := by
  unfold escChar
  by_cases h1 : c = '&'
  · subst h1; decide
  · by_cases h2 : c = '<'
    · subst h2; decide
    · by_cases h3 : c = '>'
      · subst h3; decide
      · by_cases h4 : c = '"'
        · subst h4; decide
        · simp [h1, h2, h3, h4]

set_option maxRecDepth 100000 in
/-- C2: `escapeHtml` is exactly the one-pass entity substitution on the
four characters `& < > "`: its output never contains a raw `<`, `>` or
`"`, and every `&` it emits begins an entity introduced by the map.
Concretely, the rendered needs-you fragment for a title containing
`<script>&"` carries the fully escaped form and no raw occurrence of
the probe. -/
theorem c2_escaping :
    (∀ s : List Char, escapeHtmlL s = s.flatMap escChar) ∧
    (∀ s : List Char,
      (escapeHtmlL s).all (fun x => !(x = '<' || x = '>' || x = '"')) = true) ∧
    jsIncludes (buildNeedsYouSection [c2Item] (jobj []))
      "&lt;script&gt;&amp;&quot;" = true ∧
    jsIncludes (buildNeedsYouSection [c2Item] (jobj [])) "<script>&\"" = false := by
  refine ⟨escapeHtmlL_eq_flat, ?_, ?_, ?_⟩
  · intro s
    rw [escapeHtmlL_eq_flat]
    induction s with
    | nil => rfl
    | cons c t ih =>
        simp only [List.flatMap_cons, List.all_append, ih, escChar_clean]
        rfl
  · decide
  · decide

-- ---------------------------------------------------------------------------
-- C7: the relative-age normalizer
-- ---------------------------------------------------------------------------

/-- A digit run stops at the first non-digit. -/
theorem takeWhile_digits (ds : List Char) (u : Char) (rest : List Char)
    (hds : ∀ c ∈ ds, ccDigit.mem c = true) (hu : ccDigit.mem u = false) :
    (ds ++ u :: rest).takeWhile ccDigit.mem = ds := by
  induction ds with
  | nil => simp [List.takeWhile, hu]
  | cons d t ih =>
      have hd : ccDigit.mem d = true := hds d (by simp)
      simp only [List.cons_append, List.takeWhile_cons, hd, if_true]
      rw [ih (fun c hc => hds c (by simp [hc]))]

/-- The greedy star's first (longest) candidate wins as soon as the
continuation accepts it. -/
theorem tryLens_hit (pre z : List Char) (caps : Caps) (k : MK) (x : List Char × Caps)
    (hk : k z caps = some x) : tryLens (pre ++ z) caps k pre.length = some x := by
  cases pre with
  | nil => simpa [tryLens] using hk
  | cons p pre' =>
      show tryLens ((p :: pre') ++ z) caps k (pre'.length + 1) = some x
      unfold tryLens
      have hd : ((p :: pre') ++ z).drop (pre'.length + 1) = z := by
        simpa using List.drop_left (p :: pre') z
      rw [hd, hk]
      rfl

/-- Matching `(\d+)` at the head of a digit run followed by a non-digit
hands the continuation the remainder after the full run. -/
theorem mat_plus_digits (d : Char) (ds' : List Char) (u : Char) (rest : List Char)
    (caps : Caps) (k : MK) (x : List Char × Caps)
    (hd : ccDigit.mem d = true) (hds : ∀ c ∈ ds', ccDigit.mem c = true)
    (hu : ccDigit.mem u = false) (hk : k (u :: rest) caps = some x) :
    mat (rplus ccDigit) ((d :: ds') ++ u :: rest) caps k = some x := by
  simp only [rplus, mat, List.cons_append, hd, if_true]
  rw [takeWhile_digits ds' u rest hds hu]
  exact tryLens_hit ds' (u :: rest) caps k x hk

/-- Full match of the `parseAge` regex on a digit run followed by a unit
letter: group 1 captures the run, group 2 the letter, and matching
resumes after the letter. -/
theorem mat_age (d : Char) (ds' : List Char) (u : Char) (rest : List Char)
    (hd : ccDigit.mem d = true) (hds : ∀ c ∈ ds', ccDigit.mem c = true)
    (hu : u = 'm' ∨ u = 'h' ∨ u = 'd') :
    mat ageRex ((d :: ds') ++ u :: rest) [] (fun s' c => some (s', c)) =
      some (rest, [(2, [u]), (1, d :: ds')]) := by
  have hlen1 : ((d :: ds') ++ u :: rest).length - (u :: rest).length = ds'.length + 1 := by
    simp; omega
  have hcap1 : ((d :: ds') ++ u :: rest).take (ds'.length + 1) = d :: ds' := by
    simpa using List.take_left (d :: ds') (u :: rest)
  have hcap2 : (u :: rest).length - rest.length = 1 := by simp
  have hnd : ccDigit.mem u = false := by
    rcases hu with rfl | rfl | rfl <;> decide
  simp only [ageRex, rseq, List.foldr, mat]
  refine mat_plus_digits d ds' u rest [] _ _ hd hds hnd ?_
  simp only [hlen1, hcap1, hcap2, mat]
  rcases hu with rfl | rfl | rfl <;>
    simp [eatStr, Option.orElse, List.take_succ_cons, List.take_zero]

/-- Leftmost scan of the `parseAge` regex on a string that is a digit run
followed by a unit letter: the match starts at position zero. -/
theorem scanM_age (ds : List Char) (u : Char) (rest : List Char) (hds : ds ≠ [])
    (hdig : ∀ c ∈ ds, ccDigit.mem c = true) (hu : u = 'm' ∨ u = 'h' ∨ u = 'd') :
    scanM ageRex (ds ++ u :: rest) = some ([], ds ++ [u], [(2, [u]), (1, ds)], rest) := by
  obtain ⟨d, ds', rfl⟩ : ∃ d ds', ds = d :: ds' := by
    cases ds with
    | nil => exact absurd rfl hds
    | cons a b => exact ⟨a, b, rfl⟩
  have hmat := mat_age d ds' u rest (hdig d (by simp))
    (fun c hc => hdig c (by simp [hc])) hu
  have hlen : (d :: (ds' ++ u :: rest)).length - rest.length = ds'.length + 2 := by
    simp; omega
  have htake : (d :: (ds' ++ u :: rest)).take (ds'.length + 2) = d :: (ds' ++ [u]) := by
    have := List.take_left ((d :: ds') ++ [u]) rest
    simpa [List.append_assoc] using this
  simp only [List.cons_append, scanM, List.append_eq] at hmat ⊢
  rw [hmat]
  dsimp only
  rw [hlen, htake]

/-- `parseAge` on a digit run followed by a unit letter and anything
after it: the minutes follow the unit. -/
theorem parseAge_form (ds : List Char) (u : Char) (rest : List Char) (hne : ds ≠ [])
    (hdig : ∀ c ∈ ds, ccDigit.mem c = true) (hu : u = 'm' ∨ u = 'h' ∨ u = 'd') :
    parseAge ⟨ds ++ u :: rest⟩ =
      (if u = 'm' then digitsVal ds
       else if u = 'h' then digitsVal ds * 60
       else digitsVal ds * 60 * 24) := by
  obtain ⟨d, ds', rfl⟩ : ∃ d ds', ds = d :: ds' := by
    cases ds with
    | nil => exact absurd rfl hne
    | cons a b => exact ⟨a, b, rfl⟩
  have hdd : ccDigit.mem d = true := hdig d (by simp)
  have hne1 : (⟨(d :: ds') ++ u :: rest⟩ : String) ≠ "" := by
    intro h
    have h' : (d :: ds') ++ u :: rest = "".data := congrArg String.data h
    simp at h'
  have hne2 : (⟨(d :: ds') ++ u :: rest⟩ : String) ≠ "just now" := by
    intro h
    have h' : (d :: ds') ++ u :: rest = "just now".data := congrArg String.data h
    have hj : "just now".data = ['j', 'u', 's', 't', ' ', 'n', 'o', 'w'] := rfl
    rw [hj, List.cons_append] at h'
    have hd' : d = 'j' := (List.cons.injEq _ _ _ _ ▸ h').1
    rw [hd'] at hdd
    exact absurd hdd (by decide)
  unfold parseAge
  rw [if_neg hne1, if_neg hne2]
  show (match scanM ageRex ((d :: ds') ++ u :: rest) with
    | some (_, _, caps, _) =>
        let num := digitsVal ((caps.lookup 1).getD [])
        let unit := (caps.lookup 2).getD []
        if unit = ['m'] then num
        else if unit = ['h'] then num * 60
        else if unit = ['d'] then num * 60 * 24
        else 9999
    | none => 9999) = _
  rw [scanM_age (d :: ds') u rest (by simp) hdig hu]
  rcases hu with rfl | rfl | rfl <;> simp [List.lookup]

/-- C7: the relative-age normalizer is total on strings and returns
integer minutes: `"just now"` is 0; a digit run `N` followed by `m`
gives `N`; `N` followed by `h ago` gives `N*60`; `N` followed by
`d ago` gives `N*60*24` (= `N*1440`); and a string the matcher does not
recognize, like `"garbage"`, gives the sentinel 9999. -/
theorem c7_parse_age :
    parseAge "just now" = 0 ∧
    parseAge "garbage" = 9999 ∧
    (∀ ds : List Char, ds ≠ [] → (∀ c ∈ ds, ccDigit.mem c = true) →
      parseAge ⟨ds ++ ['m']⟩ = digitsVal ds ∧
      parseAge ⟨ds ++ 'h' :: " ago".data⟩ = digitsVal ds * 60 ∧
      parseAge ⟨ds ++ 'd' :: " ago".data⟩ = digitsVal ds * 60 * 24) := by
  refine ⟨by decide, by decide, ?_⟩
  intro ds hne hdig
  refine ⟨?_, ?_, ?_⟩
  · simpa using parseAge_form ds 'm' [] hne hdig (by simp)
  · simpa using parseAge_form ds 'h' " ago".data hne hdig (by simp)
  · simpa using parseAge_form ds 'd' " ago".data hne hdig (by simp)

-- ---------------------------------------------------------------------------
-- Witnesses: concrete instantiations of the theorems with hypotheses
-- ---------------------------------------------------------------------------

/-- Witness for C3: the propagation half applied to a failing snapshot
write over an empty store. -/
theorem c3_witness :
    mainRun c3EnvOk collectedFail ⟨[], [STATE_PATH]⟩ = .error () :=
  c3_amended.1 c3EnvOk collectedFail ⟨[], [STATE_PATH]⟩ rfl

/-- Witness for C4: the frame conjunct at a concrete unknown key. -/
theorem c4_witness :
    (updateStateFileState (jobj [("foo", jstr "bar")]) cronDataFail [] agentDataFail
      "T").get "foo" = (jobj [("foo", jstr "bar")]).get "foo" :=
  (c4_amended [("foo", jstr "bar")] cronDataFail [] agentDataFail "T").1 "foo" (by decide)

/-- Witness for C6: 51 concrete appends retain exactly the 50 newest. -/
theorem c6_witness :
    appendAll [] ((List.range 51).map (fun i => ⟨toString i, "tick", "", "hal"⟩)) =
      ((List.range 51).map (fun i =>
        (⟨toString i, "tick", "", "hal"⟩ : ActivityEntry))).reverse.take
        MAX_ACTIVITY_ITEMS ∧
    (appendAll [] ((List.range 51).map (fun i =>
      (⟨toString i, "tick", "", "hal"⟩ : ActivityEntry)))).length = MAX_ACTIVITY_ITEMS :=
  c6_bounded_log.2 [] _ (by decide)

/-- Witness for C7: the specification's literal examples, through the
general theorem. -/
theorem c7_witness :
    parseAge "5m" = 5 ∧ parseAge "2h ago" = 120 ∧ parseAge "1d ago" = 1440 := by
  have h5 := (c7_parse_age.2.2 ['5'] (by decide) (by decide)).1
  have h2 := (c7_parse_age.2.2 ['2'] (by decide) (by decide)).2.1
  have h1 := (c7_parse_age.2.2 ['1'] (by decide) (by decide)).2.2
  exact ⟨h5, h2, h1⟩

/-- Witness for C8: all four branches on literal rows. -/
theorem c8_witness :
    (parseCronLine c8LineError).map Cron.color = some "red" ∧
    (parseCronLine c8LineRunning).map Cron.color = some "blue" ∧
    (parseCronLine c8LineNever).map Cron.color = some "orange" ∧
    (parseCronLine c8LineGreen).map Cron.color = some "green" := by
  refine ⟨?_, ?_, ?_, ?_⟩
  · obtain ⟨c, hc⟩ : ∃ c, parseCronLine c8LineError = some c := ⟨_, rfl⟩
    rw [hc, Option.map_some']
    exact congrArg some ((c8_cron_colors c8LineError c hc).1 (by
      have : c.status = "error" := by rw [show c = _ from Option.some.inj hc.symm]; rfl
      exact this))
  · obtain ⟨c, hc⟩ : ∃ c, parseCronLine c8LineRunning = some c := ⟨_, rfl⟩
    rw [hc, Option.map_some']
    refine congrArg some ((c8_cron_colors c8LineRunning c hc).2.1 ?_ ?_) <;>
      rw [show c = _ from Option.some.inj hc.symm] <;> decide
  · obtain ⟨c, hc⟩ : ∃ c, parseCronLine c8LineNever = some c := ⟨_, rfl⟩
    rw [hc, Option.map_some']
    refine congrArg some ((c8_cron_colors c8LineNever c hc).2.2.1 ?_ ?_ ?_) <;>
      rw [show c = _ from Option.some.inj hc.symm] <;> decide
  · obtain ⟨c, hc⟩ : ∃ c, parseCronLine c8LineGreen = some c := ⟨_, rfl⟩
    rw [hc, Option.map_some']
    refine congrArg some
      ((c8_cron_colors c8LineGreen c hc).2.2.2 ?_ ?_ ?_ ?_) <;>
      rw [show c = _ from Option.some.inj hc.symm] <;> decide

/-- Witness for C9: on a literal row the status is the lower-cased
column. -/
theorem c9_witness : (parseCronLine c9LineOk).map Cron.status = some "ok" := by
  obtain ⟨c, hc⟩ : ∃ c, parseCronLine c9LineOk = some c := ⟨_, rfl⟩
  rw [hc, Option.map_some']
  have h := (c9_amended c9LineOk c hc).1
  rw [h]
  decide

/-- Witness for C10: a concrete unparseable output yields the one-agent
fallback. -/
theorem c10_witness :
    getActiveAgents (fun _ => none) (some "nonsense") none 0 (fun _ => 0) =
      ⟨[], [], 1⟩ :=
  (c10_agent_fallback (fun _ => none) none 0 (fun _ => 0)).2.1 "nonsense" rfl

end Dash
